import Mathlib

/-!
# Verification of the mastermind cluster-management core

Shallow embedding of the parts of `src/cocaine-app/storage.py` and
`src/cocaine-app/balancer.py` that the checked claims are about, together
with proofs settling each claim.

Conventions:
* Python tuples/lists of group indices become `List ℕ`.
* Python numeric values (ints and floats) become `ℚ` where division occurs,
  `ℤ`/`ℕ` otherwise; `math.ceil`/`math.floor` become `Rat.ceil`/`Rat.floor`.
* Status objects carry a `(code, text)` pair in the source; the claims are
  exclusively about codes, so the embedding keeps the codes and drops the
  human-readable format strings.
* Python `None` becomes `Option.none`; raised exceptions become `Except`.
-/

namespace Storage

/-! ## LRC 8-2-2 scheme tables (storage.py, `generate_lrc822v1_bad_parts_indices`
and `Lrc.Scheme822v1`) -/

/-- `itertools.combinations l k`: all subsequences of `l` of length `k`.
(`generate_lrc822v1_bad_parts_indices` only uses the result as a set, so the
enumeration order is irrelevant.) -/
def combinations (l : List ℕ) (k : ℕ) : List (List ℕ) :=
  List.sublistsLen k l

/-- Python `sorted` on a list of naturals. -/
def pySorted (l : List ℕ) : List ℕ :=
  List.insertionSort (· ≤ ·) l

/-- `local_groups` from `generate_lrc822v1_bad_parts_indices`. -/
def local_groups : List (List ℕ) := [[0, 1, 2, 3], [4, 5, 6, 7]]

/-- `local_parity` from `generate_lrc822v1_bad_parts_indices`. -/
def local_parity : List (List ℕ) := [[8], [9]]

/-- `global_parity` from `generate_lrc822v1_bad_parts_indices`. -/
def global_parity : List ℕ := [10, 11]

/-- `generate_lrc822v1_bad_parts_indices` (storage.py:82-135): the list of all
4-part loss patterns that LRC 8-2-2 cannot reconstruct, each sorted. -/
def generate_lrc822v1_bad_parts_indices : List (List ℕ) :=
  let indices :=
    -- all 4 data parts from local group
    local_groups
    -- 3 data parts from a local group + 1 corresponding local parity part
    ++ (local_groups.zip local_parity).flatMap
        (fun p => (combinations p.1 3).map (fun d => d ++ p.2))
    -- 3 data parts from a local group + 1 global parity part
    ++ local_groups.flatMap
        (fun parts => (combinations parts 3).flatMap
          (fun d => (combinations global_parity 1).map (fun g => d ++ g)))
    -- 2 data parts from a local group + 2 global parts
    ++ local_groups.flatMap
        (fun parts => (combinations parts 2).map (fun d => d ++ global_parity))
    -- 2 data parts from a local group + 1 corresponding local parity part
    -- + 1 global part
    ++ (local_groups.zip local_parity).flatMap
        (fun p => (combinations p.1 2).flatMap
          (fun d => (combinations global_parity 1).map (fun g => d ++ p.2 ++ g)))
    -- 1 data part from a local group + 1 corresponding local parity part
    -- + 2 global parts
    ++ (local_groups.zip local_parity).flatMap
        (fun p => (combinations p.1 1).map (fun d => d ++ p.2 ++ global_parity))
  indices.map pySorted

/-- `Lrc.Scheme822v1.BAD_DATA_PARTS_INDICES` (storage.py:217). The Python
`set(...)` is modelled by list membership. -/
def BAD_DATA_PARTS_INDICES : List (List ℕ) :=
  generate_lrc822v1_bad_parts_indices

/-- `Lrc.Scheme822v1.is_data_partially_unavailable` (storage.py:219-245). -/
def is_data_partially_unavailable (unavailable : List ℕ) : Bool :=
  if unavailable.length > 4 then
    true
  else if unavailable.length < 4 then
    false
  else if pySorted unavailable ∈ BAD_DATA_PARTS_INDICES then
    true
  else
    false

/-- `Lrc.Scheme822v1.INDEX_SHARD_INDICES` (storage.py:181-187). -/
def INDEX_SHARD_INDICES : List (List ℕ) :=
  [[0, 2, 8], [1, 3, 9], [4, 6, 10], [5, 7, 11]]

/-- `Lrc.Scheme822v1.get_unavailable_index_shard_indices` (storage.py:189-215). -/
def get_unavailable_index_shard_indices (unavailable : List ℕ) :
    Option (List ℕ) :=
  INDEX_SHARD_INDICES.find? (fun shard => shard.all (· ∈ unavailable))

/-! Spec-side description of the bad-parts table, written from the words of the
claim: data parts `0..7` split into locals `{0..3}` and `{4..7}`, local
parities `{8}`/`{9}`, globals `{10, 11}`; the table is the union of the six
4-part loss-pattern families. This definition is deliberately independent of
the generator above (subset/cardinality conditions instead of combination
enumeration) so that comparing the two is meaningful. -/

/-- Spec: the two local groups of data parts. -/
def specLocal (i : Fin 2) : List ℕ :=
  if i = 0 then [0, 1, 2, 3] else [4, 5, 6, 7]

/-- Spec: the local parity of each local group. -/
def specLocalParity (i : Fin 2) : ℕ :=
  if i = 0 then 8 else 9

/-- Spec: the global parities. -/
def specGlobals : List ℕ := [10, 11]

/-- How many elements of `s` lie in `t` (for duplicate-free `s` this is the
cardinality of the intersection). -/
def countIn (s t : List ℕ) : ℕ :=
  (s.filter (· ∈ t)).length

/-- Set equality of index lists. -/
def eqSet (s t : List ℕ) : Bool :=
  s.all (· ∈ t) && t.all (· ∈ s)

/-- Spec: a duplicate-free 4-element index set `s` is one of the six described
4-part loss-pattern families. Each family is characterised by subset and
intersection-cardinality conditions instead of the generator's combination
enumeration, so comparing with the generated table is meaningful. -/
def specBadPattern (s : List ℕ) : Bool :=
  (List.finRange 2).any fun i =>
    -- (a) all 4 data parts of a local group
    eqSet s (specLocal i)
    -- (b) 3 data parts of a local group plus its local parity
    || (s.all (· ∈ specLocal i ++ [specLocalParity i])
        && specLocalParity i ∈ s && countIn s (specLocal i) == 3)
    -- (c) 3 data parts plus one global parity
    || specGlobals.any (fun g =>
        s.all (· ∈ specLocal i ++ [g]) && g ∈ s && countIn s (specLocal i) == 3)
    -- (d) 2 data parts plus both globals
    || (s.all (· ∈ specLocal i ++ specGlobals)
        && specGlobals.all (· ∈ s) && countIn s (specLocal i) == 2)
    -- (e) 2 data parts plus its local parity plus one global
    || specGlobals.any (fun g =>
        s.all (· ∈ specLocal i ++ [specLocalParity i, g])
        && specLocalParity i ∈ s && g ∈ s && countIn s (specLocal i) == 2)
    -- (f) 1 data part plus its local parity plus both globals
    || (s.all (· ∈ specLocal i ++ [specLocalParity i] ++ specGlobals)
        && specLocalParity i ∈ s && specGlobals.all (· ∈ s)
        && countIn s (specLocal i) == 1)

/-- Spec-side table: the sorted duplicate-free 4-element index lists drawn
from `0..11` that match one of the six families. -/
def specBadTable : List (List ℕ) :=
  (combinations (List.range 12) 4).filter specBadPattern

/-- Lexicographic-style Boolean order on index lists, used only to put both
tables into a canonical form for comparison. -/
def listLe : List ℕ → List ℕ → Bool
  | [], _ => true
  | _ :: _, [] => false
  | a :: as, b :: bs => if a < b then true else if b < a then false else listLe as bs

/-- Canonical form of a table: duplicates removed, entries sorted. -/
def canonTable (t : List (List ℕ)) : List (List ℕ) :=
  List.insertionSort (fun a b => listLe a b) t.dedup

/-- The generated table and the spec-side table agree up to order and
duplicates. -/
lemma bad_table_canon_eq :
    canonTable BAD_DATA_PARTS_INDICES = canonTable specBadTable := by
  decide

/-- Membership in a table is invariant under canonicalisation. -/
lemma mem_canonTable (l : List ℕ) (t : List (List ℕ)) :
    l ∈ canonTable t ↔ l ∈ t := by
  unfold canonTable
  rw [(List.perm_insertionSort (fun a b => listLe a b) t.dedup).mem_iff]
  exact List.mem_dedup

/-- Membership in the generated table coincides with membership in the
spec-side table. -/
lemma mem_bad_table_iff (l : List ℕ) :
    l ∈ BAD_DATA_PARTS_INDICES ↔ l ∈ specBadTable := by
  rw [← mem_canonTable l BAD_DATA_PARTS_INDICES, bad_table_canon_eq,
    mem_canonTable]

/-- **C1.** `is_data_partially_unavailable(U)` is true iff `|U| > 4`, or
`|U| = 4` and `sorted(U)` is in the table generated as the union of the six
4-part loss patterns (described spec-side by `specBadTable`); in particular it
is true for `{0,1,2,3}`, false for `{0,1,4,5}`, true for `{0,1,2,8}` and true
for `{0,1,10,11}`. -/
theorem is_data_partially_unavailable_spec :
    (∀ U : List ℕ,
      is_data_partially_unavailable U = true ↔
        4 < U.length ∨ (U.length = 4 ∧ pySorted U ∈ specBadTable))
    ∧ is_data_partially_unavailable [0, 1, 2, 3] = true
    ∧ is_data_partially_unavailable [0, 1, 4, 5] = false
    ∧ is_data_partially_unavailable [0, 1, 2, 8] = true
    ∧ is_data_partially_unavailable [0, 1, 10, 11] = true := by
  refine ⟨fun U => ?_, by decide, by decide, by decide, by decide⟩
  unfold is_data_partially_unavailable
  split_ifs with h1 h2 h3
  · simp [h1]
  · constructor
    · intro hc; exact absurd hc (by simp)
    · rintro (hc | ⟨hc, -⟩) <;> omega
  · have hlen : U.length = 4 := by omega
    exact ⟨fun _ => Or.inr ⟨hlen, (mem_bad_table_iff _).mp h3⟩, fun _ => rfl⟩
  · constructor
    · intro hc; exact absurd hc (by simp)
    · rintro (hc | ⟨-, hm⟩)
      · omega
      · exact h3 ((mem_bad_table_iff _).mpr hm)

/-! ## Status codes (storage.py, `class Status`)

The source pairs every status with a human-readable text; all claims concern
the codes only, so texts are not modelled. -/

inductive StatusCode where
  | INIT | OK | FULL | COUPLED | BAD | BROKEN | RO | STALLED | FROZEN
  | ARCHIVED | BAD_DATA_UNAVAILABLE | BAD_INDICES_UNAVAILABLE | MIGRATING
  | SERVICE_ACTIVE | SERVICE_STALLED
deriving DecidableEq, Repr

/-! ## Group meta documents (storage.py, `Group.parse_meta`, `Group.equal_meta`)

A meta document is a Python dict; optional keys accessed with `.get` are
modelled as `Option` fields. -/

/-- The `service` sub-document of a meta document. -/
structure ServiceMeta where
  status : String
  job_id : String
deriving DecidableEq, Repr

/-- The `lrc` sub-document of a meta document. -/
structure LrcMeta where
  groups : List ℕ
  part_size : Option ℕ
  scheme : Option String
deriving DecidableEq, Repr

/-- A parsed metakey document. `ns` models the `namespace` key. -/
structure MetaDoc where
  version : ℕ
  couple : Option (List ℕ)
  ns : Option String
  frozen : Option Bool
  type : Option String
  service : Option ServiceMeta
  lrc : Option LrcMeta
deriving DecidableEq, Repr

/-- `Group.DEFAULT_NAMESPACE`. -/
def DEFAULT_NAMESPACE : String := "default"

/-- `Group.CACHE_NAMESPACE`. -/
def CACHE_NAMESPACE : String := "storage_cache"

/-- The value a Python `msgpack.unpackb` of a group metakey yields: either a
legacy bare tuple/list of group ids or a dict document. -/
inductive MsgValue where
  | legacy (t : List ℕ)
  | doc (m : MetaDoc)
deriving DecidableEq, Repr

/-! Modelled from the spec: the metakey value is a length-prefixed binary
encoding ("msgpack-compatible") of the meta document; the msgpack codec
itself is an external library, absent from the repository. The codec below is
a concrete length-prefixed encoder/decoder with the round-trip property the
source relies on. -/

/-- Length-prefixed encoding of a list of naturals. -/
def encList (l : List ℕ) : List ℕ := l.length :: l

/-- Tagged encoding of an optional value. -/
def encOpt (f : α → List ℕ) : Option α → List ℕ
  | none => [0]
  | some a => 1 :: f a

/-- Encoding of a single natural. -/
def encNat (n : ℕ) : List ℕ := [n]

/-- Encoding of a string as its character codes. -/
def encStr (s : String) : List ℕ := encList (s.toList.map Char.toNat)

/-- Encoding of a boolean. -/
def encBool (b : Bool) : List ℕ := [if b then 1 else 0]

/-- Encoding of a `service` sub-document. -/
def encService (s : ServiceMeta) : List ℕ := encStr s.status ++ encStr s.job_id

/-- Encoding of an `lrc` sub-document. -/
def encLrc (l : LrcMeta) : List ℕ :=
  encList l.groups ++ encOpt encNat l.part_size ++ encOpt encStr l.scheme

/-- `msgpack.packb`, modelled from the spec as a length-prefixed binary
encoding of either a legacy tuple or a dict document. -/
def packb : MsgValue → List ℕ
  | .legacy t => 0 :: encList t
  | .doc m =>
      1 :: m.version :: (encOpt encList m.couple ++ encOpt encStr m.ns
        ++ encOpt encBool m.frozen ++ encOpt encStr m.type
        ++ encOpt encService m.service ++ encOpt encLrc m.lrc)

/-- Decoder state-passing combinator result: decoded value and remaining
input. -/
abbrev Dec (α : Type) := List ℕ → Option (α × List ℕ)

/-- Decode a length-prefixed list. -/
def decList : Dec (List ℕ)
  | [] => none
  | n :: rest =>
      if n ≤ rest.length then some (rest.take n, rest.drop n) else none

/-- Decode a tagged optional value. -/
def decOpt (f : Dec α) : Dec (Option α)
  | [] => none
  | 0 :: rest => some (none, rest)
  | (_ + 1) :: rest => (f rest).map (fun p => (some p.1, p.2))

/-- Decode a single natural. -/
def decNat : Dec ℕ
  | [] => none
  | n :: rest => some (n, rest)

/-- Decode a string. -/
def decStr : Dec String := fun b =>
  (decList b).map (fun p => (String.mk (p.1.map Char.ofNat), p.2))

/-- Decode a boolean. -/
def decBool : Dec Bool
  | [] => none
  | 0 :: rest => some (false, rest)
  | (_ + 1) :: rest => some (true, rest)

/-- Decode a `service` sub-document. -/
def decService : Dec ServiceMeta := fun b => do
  let (st, b) ← decStr b
  let (jid, b) ← decStr b
  some (⟨st, jid⟩, b)

/-- Decode an `lrc` sub-document. -/
def decLrc : Dec LrcMeta := fun b => do
  let (gs, b) ← decList b
  let (ps, b) ← decOpt decNat b
  let (sc, b) ← decOpt decStr b
  some (⟨gs, ps, sc⟩, b)

/-- `msgpack.unpackb`, the inverse of `packb`. -/
def unpackb (bytes : List ℕ) : Option MsgValue :=
  match bytes with
  | 0 :: rest =>
      match decList rest with
      | some (t, []) => some (.legacy t)
      | _ => none
  | 1 :: v :: rest =>
      (do
        let (c, b) ← decOpt decList rest
        let (n, b) ← decOpt decStr b
        let (f, b) ← decOpt decBool b
        let (ty, b) ← decOpt decStr b
        let (sv, b) ← decOpt decService b
        let (lr, b) ← decOpt decLrc b
        if b.isEmpty then some (MsgValue.doc ⟨v, c, n, f, ty, sv, lr⟩) else none)
  | _ => none

lemma decList_encList (l r : List ℕ) : decList (encList l ++ r) = some (l, r) := by
  simp [encList, decList, List.take_left, List.drop_left]

lemma decNat_encNat (n : ℕ) (r : List ℕ) : decNat (encNat n ++ r) = some (n, r) := by
  simp [encNat, decNat]

lemma decStr_encStr (s : String) (r : List ℕ) :
    decStr (encStr s ++ r) = some (s, r) := by
  unfold decStr encStr
  rw [decList_encList]
  simp [List.map_map, Function.comp_def]

lemma decBool_encBool (b : Bool) (r : List ℕ) :
    decBool (encBool b ++ r) = some (b, r) := by
  cases b <;> simp [encBool, decBool]

lemma decOpt_encOpt (f : α → List ℕ) (g : Dec α)
    (h : ∀ a r, g (f a ++ r) = some (a, r)) (o : Option α) (r : List ℕ) :
    decOpt g (encOpt f o ++ r) = some (o, r) := by
  cases o <;> simp [encOpt, decOpt, h]

lemma decService_encService (s : ServiceMeta) (r : List ℕ) :
    decService (encService s ++ r) = some (s, r) := by
  unfold encService decService
  rw [List.append_assoc, decStr_encStr]
  simp [decStr_encStr]

lemma decLrc_encLrc (l : LrcMeta) (r : List ℕ) :
    decLrc (encLrc l ++ r) = some (l, r) := by
  unfold encLrc decLrc
  rw [List.append_assoc, List.append_assoc, decList_encList]
  simp [decOpt_encOpt _ _ decNat_encNat, decOpt_encOpt _ _ decStr_encStr]

/-- The modelled codec round-trips. -/
lemma unpackb_packb (v : MsgValue) : unpackb (packb v) = some v := by
  cases v with
  | legacy t =>
      have := decList_encList t []
      simp only [List.append_nil] at this
      simp [packb, unpackb, this]
  | doc m =>
      obtain ⟨ver, c, n, f, ty, sv, lr⟩ := m
      have hlast : decOpt decLrc (encOpt encLrc lr) = some (lr, []) := by
        have := decOpt_encOpt encLrc decLrc decLrc_encLrc lr []
        simpa using this
      simp [packb, unpackb, List.append_assoc,
        decOpt_encOpt _ _ decList_encList, decOpt_encOpt _ _ decStr_encStr,
        decOpt_encOpt _ _ decBool_encBool,
        decOpt_encOpt _ _ decService_encService, hlast]

/-- `Group.parse_meta` (storage.py:1584-1604), restricted to its effect on
`self.meta`: a legacy bare tuple/list is lifted to a version-1 document with
the default namespace and `frozen = false`; a dict with `version == 2` is used
as-is; anything else raises. (The `_get_type` side effect sets the group type
and cannot raise; it is not part of any claim.) -/
def parse_meta (raw_meta : Option (List ℕ)) : Except String (Option MetaDoc) :=
  match raw_meta with
  | none => .ok none
  | some bytes =>
      match unpackb bytes with
      | none => .error "msgpack unpack failed"
      | some (.legacy t) =>
          .ok (some { version := 1, couple := some t,
                      ns := some DEFAULT_NAMESPACE, frozen := some false,
                      type := none, service := none, lrc := none })
      | some (.doc m) =>
          if m.version = 2 then .ok (some m) else .error "Unable to parse meta"

/-- **C4.** For every valid version-2 meta document `m`,
`parse_meta(encode(m))` sets the group meta to `m`; for every legacy bare
tuple `t`, `parse_meta(encode(t))` sets it to
`{version: 1, couple: t, namespace: "default", frozen: false}`; consequently
re-encoding the parse result of a version-2 document reproduces the original
encoding. -/
theorem parse_meta_roundtrip :
    (∀ m : MetaDoc, m.version = 2 →
      parse_meta (some (packb (.doc m))) = .ok (some m))
    ∧ (∀ t : List ℕ,
      parse_meta (some (packb (.legacy t))) =
        .ok (some { version := 1, couple := some t,
                    ns := some DEFAULT_NAMESPACE, frozen := some false,
                    type := none, service := none, lrc := none }))
    ∧ (∀ m d : MetaDoc, m.version = 2 →
      parse_meta (some (packb (.doc m))) = .ok (some d) →
      packb (.doc d) = packb (.doc m)) := by
  refine ⟨fun m hm => ?_, fun t => ?_, fun m d hm hp => ?_⟩
  · simp [parse_meta, unpackb_packb, hm]
  · simp [parse_meta, unpackb_packb]
  · simp [parse_meta, unpackb_packb, hm] at hp
    rw [hp]

/-- Witness for C4 at a concrete version-2 document. -/
theorem parse_meta_roundtrip_witness :
    parse_meta (some (packb (.doc
      { version := 2, couple := some [1, 2], ns := some "img",
        frozen := some false, type := none, service := none, lrc := none }))) =
    .ok (some
      { version := 2, couple := some [1, 2], ns := some "img",
        frozen := some false, type := none, service := none, lrc := none }) :=
  parse_meta_roundtrip.1 _ rfl

/-! ## Statistics fold (storage.py, `NodeStat`, `CommandsStat`,
`NodeBackendStat`, `FsStat`)

Timestamps, counters and rates are Python numbers; they are modelled as `ℚ`.
A `ts` that has never been set is `None` in the source and `none` here (the
source tests it with truthiness; a literal zero timestamp never occurs for
wall-clock times and is not distinguished). -/

/-- Modelled from the spec: `helpers.unidirectional_value_map` lives in
`helpers.py`, which is not among the provided sources. Per the spec: if the
previous counter value is unset or the new value is less than the previous
one (counter wrap or restart), the existing value is kept; otherwise
`func old new` is applied. -/
def unidirectional_value_map (current : ℚ) (old : Option ℚ) (new : ℚ)
    (func : ℚ → ℚ → ℚ) : ℚ :=
  match old with
  | none => current
  | some ov => if new < ov then current else func ov new

/-- `NodeStat` (storage.py:588-645), restricted to the fields its `update`
touches. The aggregated `commands_stat` recomputed by
`update_commands_stats` is not part of any claim. -/
structure NodeStat where
  ts : Option ℚ := none
  load_average : ℚ := 0
  tx_bytes : ℚ := 0
  rx_bytes : ℚ := 0
  tx_rate : ℚ := 0
  rx_rate : ℚ := 0
deriving DecidableEq, Repr

/-- A network interface sample: `(name, receive bytes, transmit bytes)`. -/
structure NetInterface where
  name : String
  receive_bytes : ℚ
  transmit_bytes : ℚ
deriving DecidableEq, Repr

/-- The summed receive-bytes counter over non-loopback interfaces computed by
`NodeStat.update`. -/
def newRxBytes (interfaces : List NetInterface) : ℚ :=
  (interfaces.map (fun i => if i.name = "lo" then 0 else i.receive_bytes)).sum

/-- The summed transmit-bytes counter over non-loopback interfaces computed by
`NodeStat.update`. -/
def newTxBytes (interfaces : List NetInterface) : ℚ :=
  (interfaces.map (fun i => if i.name = "lo" then 0 else i.transmit_bytes)).sum

/-- `NodeStat.update` (storage.py:597-627). -/
def NodeStat.update (st : NodeStat) (la : ℚ) (interfaces : List NetInterface)
    (collect_ts : ℚ) : NodeStat :=
  let new_rx_bytes := newRxBytes interfaces
  let new_tx_bytes := newTxBytes interfaces
  let st :=
    match st.ts with
    | some ts =>
        if ts < collect_ts then
          let diff_ts := collect_ts - ts
          { st with
            load_average := la
            tx_rate := unidirectional_value_map st.tx_rate (some st.tx_bytes)
              new_tx_bytes (fun ov nv => (nv - ov) / diff_ts)
            rx_rate := unidirectional_value_map st.rx_rate (some st.rx_bytes)
              new_rx_bytes (fun ov nv => (nv - ov) / diff_ts) }
        else { st with load_average := la }
    | none => { st with load_average := la }
  { st with tx_bytes := new_tx_bytes, rx_bytes := new_rx_bytes,
            ts := some collect_ts }

/-- One entry of the raw `commands` statistics: command kind, source type
(`disk`/`cache`), destination type (`internal`/`outside`) and its `time` and
`size` counters. `is_write` models `cmd_type in ('WRITE', 'WRITE_NEW')`. -/
structure CommandEntry where
  is_write : Bool
  src : String
  dst : String
  time : ℚ
  size : ℚ
deriving DecidableEq, Repr

/-- `CommandsStat.commands_stats` (storage.py:758-787). -/
def commands_stats (commands : List CommandEntry)
    (write_ops read_ops disk cache internal outside : Bool) :
    List CommandEntry :=
  commands.filter fun e =>
    !(!write_ops && e.is_write) && !(!read_ops && !e.is_write)
    && !(!disk && e.src == "disk") && !(!cache && e.src == "cache")
    && !(!internal && e.dst == "internal") && !(!outside && e.dst == "outside")

/-- `CommandsStat.sum` over the `time` field. -/
def sumTime (stats : List CommandEntry) : ℚ := (stats.map (·.time)).sum

/-- `CommandsStat.sum` over the `size` field. -/
def sumSize (stats : List CommandEntry) : ℚ := (stats.map (·.size)).sum

/-- `CommandsStat` (storage.py:648-658). -/
structure CommandsStat where
  ts : Option ℚ := none
  ell_disk_read_time_cnt : Option ℚ := none
  ell_disk_write_time_cnt : Option ℚ := none
  ell_disk_read_size : Option ℚ := none
  ell_disk_write_size : Option ℚ := none
  ell_net_read_size : Option ℚ := none
  ell_net_write_size : Option ℚ := none
  ell_disk_read_time : ℚ := 0
  ell_disk_write_time : ℚ := 0
  ell_disk_read_rate : ℚ := 0
  ell_disk_write_rate : ℚ := 0
  ell_net_read_rate : ℚ := 0
  ell_net_write_rate : ℚ := 0
deriving DecidableEq, Repr

/-- New disk-read time counter computed by `CommandsStat.update`. -/
def newDiskReadTime (c : List CommandEntry) : ℚ :=
  sumTime (commands_stats c false true true false true true)

/-- New disk-read size counter computed by `CommandsStat.update`. -/
def newDiskReadSize (c : List CommandEntry) : ℚ :=
  sumSize (commands_stats c false true true false true true)

/-- New disk-write time counter computed by `CommandsStat.update`. -/
def newDiskWriteTime (c : List CommandEntry) : ℚ :=
  sumTime (commands_stats c true false true false true true)

/-- New disk-write size counter computed by `CommandsStat.update`. -/
def newDiskWriteSize (c : List CommandEntry) : ℚ :=
  sumSize (commands_stats c true false true false true true)

/-- New net-read size counter computed by `CommandsStat.update`. -/
def newNetReadSize (c : List CommandEntry) : ℚ :=
  sumSize (commands_stats c false true true true true true)

/-- New net-write size counter computed by `CommandsStat.update`. -/
def newNetWriteSize (c : List CommandEntry) : ℚ :=
  sumSize (commands_stats c true false true true true true)

/-- `CommandsStat.update` (storage.py:660-752). -/
def CommandsStat.update (st : CommandsStat) (commands : List CommandEntry)
    (collect_ts : ℚ) : CommandsStat :=
  let ndrt := newDiskReadTime commands
  let ndrs := newDiskReadSize commands
  let ndwt := newDiskWriteTime commands
  let ndws := newDiskWriteSize commands
  let nnrs := newNetReadSize commands
  let nnws := newNetWriteSize commands
  let commit : CommandsStat → CommandsStat := fun st =>
    { st with
      ell_disk_read_time_cnt := some ndrt
      ell_disk_write_time_cnt := some ndwt
      ell_disk_read_size := some ndrs
      ell_disk_write_size := some ndws
      ell_net_read_size := some nnrs
      ell_net_write_size := some nnws
      ts := some collect_ts }
  match st.ts with
  | none => commit st
  | some ts =>
      let diff_ts := collect_ts - ts
      if diff_ts ≤ 1 then
        st
      else
        commit
          { st with
            ell_disk_read_time := unidirectional_value_map st.ell_disk_read_time
              st.ell_disk_read_time_cnt ndrt (fun ov nv => nv - ov)
            ell_disk_write_time := unidirectional_value_map st.ell_disk_write_time
              st.ell_disk_write_time_cnt ndwt (fun ov nv => nv - ov)
            ell_disk_read_rate := unidirectional_value_map st.ell_disk_read_rate
              st.ell_disk_read_size ndrs (fun ov nv => (nv - ov) / diff_ts)
            ell_disk_write_rate := unidirectional_value_map st.ell_disk_write_rate
              st.ell_disk_write_size ndws (fun ov nv => (nv - ov) / diff_ts)
            ell_net_read_rate := unidirectional_value_map st.ell_net_read_rate
              st.ell_net_read_size nnrs (fun ov nv => (nv - ov) / diff_ts)
            ell_net_write_rate := unidirectional_value_map st.ell_net_write_rate
              st.ell_net_write_size nnws (fun ov nv => (nv - ov) / diff_ts) }

/-- The backend `dstat` counters used by `NodeBackendStat.update`. -/
structure RawDstat where
  read_ios : ℚ
  write_ios : ℚ
deriving DecidableEq, Repr

/-- The raw backend statistics consumed by `NodeBackendStat.update`,
restricted to the fields the modelled assignments read. `dstat = none` models
a missing or error-carrying `dstat` section. -/
structure RawBackendStat where
  dstat : Option RawDstat := none
  vfs_blocks : ℚ := 0
  vfs_bsize : ℚ := 0
  vfs_bavail : ℚ := 0
  blob_size_limit : ℚ := 0
  base_size : ℚ := 0
  commands : List CommandEntry := []
deriving DecidableEq, Repr

/-- `NodeBackendStat` (storage.py:802-838), restricted to the timestamp, the
RPS counters and rates, the space figures used by `effective_space`/`is_full`
and the nested `CommandsStat`. The file-count, defrag, I/O-queue and
stat-commit fields are copied verbatim from the raw snapshot by `update` and
appear in no claim. -/
structure NodeBackendStat where
  ts : Option ℚ := none
  last_read : ℚ := 0
  last_write : ℚ := 0
  read_rps : ℚ := 0
  write_rps : ℚ := 0
  max_read_rps : ℚ := 100
  max_write_rps : ℚ := 100
  total_space : ℚ := 0
  free_space : ℚ := 0
  used_space : ℚ := 0
  vfs_total_space : ℚ := 0
  vfs_free_space : ℚ := 0
  vfs_used_space : ℚ := 0
  commands_stat : CommandsStat := {}
deriving DecidableEq, Repr

/-- `NodeBackendStat.max_rps` (storage.py:917-918). -/
def max_rps (rps load_avg : ℚ) : ℚ :=
  max (rps / max load_avg (1 / 100)) 100

/-- `NodeBackendStat.update` (storage.py:840-906): the dstat/RPS fold, then
the unconditional assignments of the timestamp and the space figures
(including the `blob_size_limit` branch), then the nested commands-stat
update. `node_load_average` is `self.node_stat.load_average`. -/
def NodeBackendStat.update (st : NodeBackendStat) (raw : RawBackendStat)
    (node_load_average : ℚ) (collect_ts : ℚ) : NodeBackendStat :=
  let st :=
    match st.ts with
    | some ts =>
        if ts < collect_ts then
          match raw.dstat with
          | some d =>
              let dt := collect_ts - ts
              let read_rps := (d.read_ios - st.last_read) / dt
              let write_rps := (d.write_ios - st.last_write) / dt
              { st with
                read_rps := read_rps
                write_rps := write_rps
                max_read_rps := max_rps read_rps node_load_average
                max_write_rps := max_rps write_rps node_load_average
                last_read := d.read_ios
                last_write := d.write_ios }
          | none => st
        else st
    | none => st
  let vfs_total_space := raw.vfs_blocks * raw.vfs_bsize
  let vfs_free_space := raw.vfs_bavail * raw.vfs_bsize
  let vfs_used_space := vfs_total_space - vfs_free_space
  let st :=
    if 0 < raw.blob_size_limit then
      { st with
        total_space := raw.blob_size_limit
        used_space := raw.base_size
        free_space := min (max 0 (raw.blob_size_limit - raw.base_size))
          vfs_free_space }
    else
      { st with
        total_space := vfs_total_space
        free_space := vfs_free_space
        used_space := vfs_used_space }
  { st with
    ts := some collect_ts
    vfs_total_space := vfs_total_space
    vfs_free_space := vfs_free_space
    vfs_used_space := vfs_used_space
    commands_stat := st.commands_stat.update raw.commands collect_ts }

/-- One `dstat` sample of a filesystem (storage.py, `FsStat`). -/
structure DstatRec where
  ts : ℚ
  io_ticks : ℚ
  read_ticks : ℚ
  write_ticks : ℚ
  read_sectors : ℚ
deriving DecidableEq, Repr

/-- `FsStat.SECTOR_BYTES`. -/
def SECTOR_BYTES : ℚ := 512

/-- `FsStat` (storage.py:1092-1109), restricted to the dstat-derived fields;
the vfs-derived fields and the aggregated commands stat appear in no claim. -/
structure FsStat where
  dstat : Option DstatRec := none
  disk_util : ℚ := 0
  disk_util_read : ℚ := 0
  disk_util_write : ℚ := 0
  disk_read_rate : ℚ := 0
  disk_write_rate : ℚ := 0
deriving DecidableEq, Repr

/-- `FsStat.apply_new_dstat` (storage.py:1111-1150). The caller stores the
new dstat sample afterwards (`self.dstat = new_dstat` in `update`); this
function models only the rate fold itself. -/
def FsStat.apply_new_dstat (st : FsStat) (nd : DstatRec) : FsStat :=
  match st.dstat with
  | none => st
  | some od =>
      let diff_ts := nd.ts - od.ts
      if diff_ts ≤ 1 then st
      else
        let disk_util := unidirectional_value_map st.disk_util
          (some od.io_ticks) nd.io_ticks
          (fun ov nv => (nv - ov) / diff_ts / 1000)
        let read_ticks := nd.read_ticks - od.read_ticks
        let write_ticks := nd.write_ticks - od.write_ticks
        let total_rw_ticks := read_ticks + write_ticks
        { st with
          disk_util := disk_util
          disk_util_read := unidirectional_value_map st.disk_util_read
            (some od.read_ticks) nd.read_ticks
            (fun ov nv =>
              if total_rw_ticks = 0 then 0
              else disk_util * (nv - ov) / total_rw_ticks)
          disk_util_write := unidirectional_value_map st.disk_util_write
            (some od.write_ticks) nd.write_ticks
            (fun ov nv =>
              if total_rw_ticks = 0 then 0
              else disk_util * (nv - ov) / total_rw_ticks)
          disk_read_rate := unidirectional_value_map st.disk_read_rate
            (some od.read_sectors) nd.read_sectors
            (fun ov nv => (nv - ov) * SECTOR_BYTES / diff_ts) }

/-- **C3, counterexample.** The claim states that for backend read/write RPS a
new counter value below the previous one leaves the existing rate unchanged.
On the code, `NodeBackendStat.update` recomputes
`read_rps = (new − old) / Δt` with no monotone-counter guard: at
`last_read = 10`, `read_rps = 5`, a new `read_ios = 4 < 10` changes the rate
(to `(4 − 10) / 100`). -/
theorem node_backend_rps_not_kept :
    ((4 : ℚ) < ({ ts := some 100, last_read := 10, read_rps := 5 } :
        NodeBackendStat).last_read)
    ∧ (NodeBackendStat.update
        { ts := some 100, last_read := 10, read_rps := 5 }
        { dstat := some { read_ios := 4, write_ios := 0 } } 1 200).read_rps
      ≠ ({ ts := some 100, last_read := 10, read_rps := 5 } :
        NodeBackendStat).read_rps := by
  constructor
  · norm_num
  · intro h
    simp only [NodeBackendStat.update] at h
    norm_num at h

/-- **C3, amended.** The monotone-counter map (unset or decreasing counter
keeps the value, otherwise `func`) and the `Δt ≤ 1` floor guard hold for the
command-stat rates and the filesystem dstat-derived rates; the node tx/rx
rates go through the monotone-counter map but are updated for every `Δt > 0`
(no `Δt ≤ 1` guard); the backend read/write RPS are recomputed as
`(new − old) / Δt` for every `Δt > 0` with a present dstat, with no
monotone-counter guard at all. -/
theorem stats_fold_amended :
    -- (i) sub-second floor guard: CommandsStat and FsStat keep all state
    (∀ (st : CommandsStat) (c : List CommandEntry) (t ts : ℚ),
      st.ts = some t → ts - t ≤ 1 → st.update c ts = st)
    ∧ (∀ (st : FsStat) (nd od : DstatRec),
      st.dstat = some od → nd.ts - od.ts ≤ 1 → st.apply_new_dstat nd = st)
    -- (ii) the monotone-counter unidirectional map
    ∧ (∀ (cur nv : ℚ) (f : ℚ → ℚ → ℚ),
      unidirectional_value_map cur none nv f = cur)
    ∧ (∀ (cur ov nv : ℚ) (f : ℚ → ℚ → ℚ), nv < ov →
      unidirectional_value_map cur (some ov) nv f = cur)
    ∧ (∀ (cur ov nv : ℚ) (f : ℚ → ℚ → ℚ), ov ≤ nv →
      unidirectional_value_map cur (some ov) nv f = f ov nv)
    -- (iii) CommandsStat folds every rate through the map for Δt > 1
    ∧ (∀ (st : CommandsStat) (c : List CommandEntry) (t ts : ℚ),
      st.ts = some t → 1 < ts - t →
      st.update c ts =
        { st with
          ell_disk_read_time := unidirectional_value_map st.ell_disk_read_time
            st.ell_disk_read_time_cnt (newDiskReadTime c) (fun ov nv => nv - ov)
          ell_disk_write_time := unidirectional_value_map st.ell_disk_write_time
            st.ell_disk_write_time_cnt (newDiskWriteTime c) (fun ov nv => nv - ov)
          ell_disk_read_rate := unidirectional_value_map st.ell_disk_read_rate
            st.ell_disk_read_size (newDiskReadSize c)
            (fun ov nv => (nv - ov) / (ts - t))
          ell_disk_write_rate := unidirectional_value_map st.ell_disk_write_rate
            st.ell_disk_write_size (newDiskWriteSize c)
            (fun ov nv => (nv - ov) / (ts - t))
          ell_net_read_rate := unidirectional_value_map st.ell_net_read_rate
            st.ell_net_read_size (newNetReadSize c)
            (fun ov nv => (nv - ov) / (ts - t))
          ell_net_write_rate := unidirectional_value_map st.ell_net_write_rate
            st.ell_net_write_size (newNetWriteSize c)
            (fun ov nv => (nv - ov) / (ts - t))
          ell_disk_read_time_cnt := some (newDiskReadTime c)
          ell_disk_write_time_cnt := some (newDiskWriteTime c)
          ell_disk_read_size := some (newDiskReadSize c)
          ell_disk_write_size := some (newDiskWriteSize c)
          ell_net_read_size := some (newNetReadSize c)
          ell_net_write_size := some (newNetWriteSize c)
          ts := some ts })
    -- (iv) NodeStat folds tx/rx through the map for every Δt > 0
    ∧ (∀ (st : NodeStat) (la : ℚ) (ifs : List NetInterface) (t ts : ℚ),
      st.ts = some t → t < ts →
      st.update la ifs ts =
        { st with
          load_average := la
          tx_rate := unidirectional_value_map st.tx_rate (some st.tx_bytes)
            (newTxBytes ifs) (fun ov nv => (nv - ov) / (ts - t))
          rx_rate := unidirectional_value_map st.rx_rate (some st.rx_bytes)
            (newRxBytes ifs) (fun ov nv => (nv - ov) / (ts - t))
          tx_bytes := newTxBytes ifs
          rx_bytes := newRxBytes ifs
          ts := some ts })
    -- (v) backend RPS: plain quotient, no guard, for every Δt > 0
    ∧ (∀ (st : NodeBackendStat) (raw : RawBackendStat) (d : RawDstat)
        (la t ts : ℚ),
      st.ts = some t → t < ts → raw.dstat = some d →
      (st.update raw la ts).read_rps = (d.read_ios - st.last_read) / (ts - t)
      ∧ (st.update raw la ts).write_rps =
          (d.write_ios - st.last_write) / (ts - t)) := by
  refine ⟨fun st c t ts h1 h2 => ?_, fun st nd od h1 h2 => ?_,
    fun cur nv f => rfl, fun cur ov nv f h => ?_, fun cur ov nv f h => ?_,
    fun st c t ts h1 h2 => ?_, fun st la ifs t ts h1 h2 => ?_,
    fun st raw d la t ts h1 h2 h3 => ?_⟩
  · unfold CommandsStat.update
    rw [h1]
    simp only [if_pos h2]
  · unfold FsStat.apply_new_dstat
    rw [h1]
    simp only [if_pos h2]
  · simp [unidirectional_value_map, h]
  · simp [unidirectional_value_map, not_lt.mpr h]
  · unfold CommandsStat.update
    rw [h1]
    simp only [if_neg (not_le.mpr h2)]
  · unfold NodeStat.update newTxBytes newRxBytes
    rw [h1]
    simp only [if_pos h2]
  · unfold NodeBackendStat.update
    rw [h1, h3]
    simp only [if_pos h2]
    constructor <;> (split <;> rfl)

/-- Witness for the amended C3 at concrete inputs: a commands-stat update with
`Δt = 1` is dropped entirely, and a backend RPS update with `Δt = 100` is the
plain quotient. -/
theorem stats_fold_amended_witness :
    (CommandsStat.update { ts := some 100 } [] 101 =
      ({ ts := some 100 } : CommandsStat))
    ∧ (NodeBackendStat.update
        { ts := some 100, last_read := 10, read_rps := 5 }
        { dstat := some { read_ios := 4, write_ios := 0 } } 1 200).read_rps
      = ((4 : ℚ) - 10) / (200 - 100) :=
  ⟨stats_fold_amended.1 { ts := some 100 } [] 100 101 rfl (by norm_num),
   (stats_fold_amended.2.2.2.2.2.2.2
     { ts := some 100, last_read := 10, read_rps := 5 }
     { dstat := some { read_ios := 4, write_ios := 0 } }
     { read_ios := 4, write_ios := 0 } 1 100 200 rfl (by norm_num) rfl).1⟩

/-! ## Node backends, effective space (storage.py, `NodeBackend`) -/

/-- `VFS_RESERVED_SPACE` (storage.py:30, default). -/
def VFS_RESERVED_SPACE : ℚ := 112742891520

/-- `NodeBackend.effective_space` (storage.py:1360-1369). `int(...)` of a
non-negative value truncates, i.e. floors. -/
def backend_effective_space (stat : Option NodeBackendStat) : ℤ :=
  match stat with
  | none => 0
  | some st =>
      let share := st.total_space / st.vfs_total_space
      let free_space_req_share : ℤ := ⌈VFS_RESERVED_SPACE * share⌉
      ⌊max 0 (st.total_space - (free_space_req_share : ℚ))⌋

/-- `NodeBackend.effective_free_space` (storage.py:1371-1378); only reached
with a present stat. -/
def backend_effective_free_space (st : NodeBackendStat) : ℚ :=
  if st.vfs_free_space ≤ VFS_RESERVED_SPACE then 0
  else max (st.free_space -
    (st.total_space - (backend_effective_space (some st) : ℚ))) 0

/-- `NodeBackend.is_full` (storage.py:1380-1391). -/
def backend_is_full (stat : Option NodeBackendStat) (reserved_space : ℚ) :
    Bool :=
  match stat with
  | none => false
  | some st =>
      if (backend_effective_space (some st) : ℚ) * (1 - reserved_space)
          ≤ st.used_space then true
      else if backend_effective_free_space st ≤ 0 then true
      else false

/-- `min` in Python 2 treats `None` as below every number. -/
def minOptQ : Option ℚ → Option ℚ → Option ℚ
  | none, _ => none
  | _, none => none
  | some a, some b => some (min a b)

/-- `NodeBackendStat.__add__` (storage.py:920-950) on the modelled fields; the
remaining fields of the fresh result keep their constructor defaults (the
source never sets `vfs_*`, `last_*` or `commands_stat` on the sum). -/
def statAdd (a b : NodeBackendStat) : NodeBackendStat :=
  { ts := minOptQ a.ts b.ts
    total_space := a.total_space + b.total_space
    free_space := a.free_space + b.free_space
    used_space := a.used_space + b.used_space
    read_rps := a.read_rps + b.read_rps
    write_rps := a.write_rps + b.write_rps
    max_read_rps := a.max_read_rps + b.max_read_rps
    max_write_rps := a.max_write_rps + b.max_write_rps }

/-- `NodeBackendStat.__mul__` (storage.py:952-989) on the modelled fields. -/
def statMul (a b : NodeBackendStat) : NodeBackendStat :=
  { ts := minOptQ a.ts b.ts
    total_space := min a.total_space b.total_space
    free_space := min a.free_space b.free_space
    used_space := max a.used_space b.used_space
    read_rps := max a.read_rps b.read_rps
    write_rps := max a.write_rps b.write_rps
    max_read_rps := min a.max_read_rps b.max_read_rps
    max_write_rps := min a.max_write_rps b.max_write_rps }

/-! ## Groups and couples (storage.py, `Group`, `Groupset`, `Couple`) -/

/-- A node backend as seen from status derivation: its (optional) gathered
statistics and its host's DC. `dc = none` models a `CacheUpstreamError` when
resolving the DC through the inventory. -/
structure BackendM where
  stat : Option NodeBackendStat := none
  dc : Option String := none
deriving DecidableEq, Repr

/-- Modelled from the spec: the job type and status constants live in
`jobs/job_types.py` and `jobs/job.py`, which are not among the provided
sources. The service job types are the move, restore-group and
add-LRC-groupset kinds, and the running statuses are new/executing. -/
def SERVICE_JOB_TYPES : List String :=
  ["move_job", "restore_group_job", "add_lrc_groupset_job"]

/-- Modelled from the spec: running job statuses (`STATUS_NEW`,
`STATUS_EXECUTING`). -/
def RUNNING_JOB_STATUSES : List String := ["new", "executing"]

/-- An active-job summary (`active_job` dicts in the source). -/
structure JobM where
  type : String
  status : String
deriving DecidableEq, Repr

/-- A group as seen from groupset status derivation. Its own `status` is the
result of `Group.update_status`, which runs before `_calculate_status`. -/
structure GroupM where
  group_id : ℕ
  status : StatusCode := .INIT
  node_backends : List BackendM := []
  meta : Option MetaDoc := none
  active_job : Option JobM := none
deriving DecidableEq, Repr

/-- `Group.get_stat` (storage.py:1621-1622): `reduce(+)` over the backends
with statistics; `none` models the `TypeError` raised on an empty sequence. -/
def GroupM.get_stat (g : GroupM) : Option NodeBackendStat :=
  match g.node_backends.filterMap (·.stat) with
  | [] => none
  | s :: rest => some (rest.foldl statAdd s)

/-- `Group.effective_space` (storage.py:1636-1638). -/
def GroupM.effective_space (g : GroupM) : ℤ :=
  (g.node_backends.map (fun nb => backend_effective_space nb.stat)).sum

/-- `Group.equal_meta` (storage.py:1606-1619): metas are equal when they agree
on every key other than the negligible `service` and `version`. -/
def equal_meta (a b : Option MetaDoc) : Bool :=
  match a, b with
  | none, none => true
  | none, some _ => false
  | some _, none => false
  | some x, some y =>
      x.couple == y.couple && x.ns == y.ns && x.frozen == y.frozen
      && x.type == y.type && x.lrc == y.lrc

/-- A replicas groupset (`Couple`). `ns` is the id of the owning namespace;
`hasLrcGroupset` models the presence of the `lrc822v1_groupset` link (whose
own groups play no role in `Couple._calculate_status`). `active_job` is the
field `update_status` refreshes before `_calculate_status` runs. -/
structure CoupleM where
  groups : List GroupM
  ns : String
  hasLrcGroupset : Bool := false
  active_job : Option JobM := none
deriving DecidableEq, Repr

/-- Per-namespace settings as used by status derivation; `none` at lookup
models both an absent and an empty (falsy) settings dict. -/
structure NsSettingsM where
  reserved_space_percentage : ℚ := 0
deriving DecidableEq, Repr

/-- The configuration flags and namespace-settings registry that
`_calculate_status` consults (module-level constants and
`infrastructure.ns_settings` in the source). -/
structure EnvM where
  forbidden_dc_sharing_among_groups : Bool := false
  forbidden_ns_without_settings : Bool := false
  forbidden_unmatched_group_total_space : Bool := false
  ns_settings : String → Option NsSettingsM := fun _ => none

/-- `Groupset.get_stat` (storage.py:1863-1867): `reduce(*)` over the groups'
stats; any group without backend statistics raises `TypeError`, which the
source catches and turns into `None`. -/
def groupset_get_stat (groups : List GroupM) : Option NodeBackendStat :=
  let per := groups.map GroupM.get_stat
  if per.any (·.isNone) then none
  else
    match per.filterMap id with
    | [] => none
    | s :: rest => some (rest.foldl statMul s)

/-- `Groupset._get_job_service_status` (storage.py:1869-1887). -/
def jobServiceStatus (c : CoupleM) : Option StatusCode :=
  match c.active_job with
  | none => none
  | some j =>
      if j.type ∈ SERVICE_JOB_TYPES then
        if j.status ∈ RUNNING_JOB_STATUSES then some .SERVICE_ACTIVE
        else some .SERVICE_STALLED
      else none

/-- `Groupset._get_meta_unavailable_status` (storage.py:1930-1940). -/
def metaUnavailableStatus (c : CoupleM) : Option StatusCode :=
  if c.groups.any (·.meta.isNone) then
    some ((jobServiceStatus c).getD .BAD)
  else none

/-- `Groupset._get_improper_namespace_status` (storage.py:1942-1960); the
couple's namespace compares equal to `group.meta.get('namespace')` only when
the latter is that namespace's id. -/
def improperNamespaceStatus (c : CoupleM) : Option StatusCode :=
  if c.groups.any (fun g => (g.meta.bind (·.ns)) ≠ some c.ns) then
    some .BAD
  else none

/-- `Groupset._get_unequal_meta_status` (storage.py:1962-1973). -/
def unequalMetaStatus (c : CoupleM) : Option StatusCode :=
  match c.groups with
  | [] => none
  | g0 :: _ =>
      if c.groups.all (fun g => equal_meta g0.meta g.meta) then none
      else some ((jobServiceStatus c).getD .BAD)

/-- `Groupset._get_couple_frozen_status` (storage.py:1975-1983). -/
def coupleFrozenStatus (c : CoupleM) : Option StatusCode :=
  if c.groups.any (fun g => (g.meta.bind (·.frozen)) = some true) then
    some .FROZEN
  else none

/-- `Groupset._get_unset_namespace_settings_status` (storage.py:1985-2002). -/
def unsetNamespaceSettingsStatus (env : EnvM) (c : CoupleM) :
    Option StatusCode :=
  if env.forbidden_ns_without_settings then
    if c.ns = CACHE_NAMESPACE then none
    else if (env.ns_settings c.ns).isNone then some .BROKEN
    else none
  else none

/-- The DC set of a group's backends; `none` models a `CacheUpstreamError`
while resolving some backend's DC (storage.py:1893-1902). -/
def groupDcs (g : GroupM) : Option (List String) :=
  if g.node_backends.any (·.dc.isNone) then none
  else some (g.node_backends.filterMap (·.dc)).dedup

/-- The pairwise-disjointness fold of `Groupset._check_dc_sharing`
(storage.py:1904-1908). -/
def dcsDisjoint : List String → List (List String) → Bool
  | _, [] => true
  | seen, d :: ds =>
      if d.any (· ∈ seen) then false else dcsDisjoint (seen ++ d) ds

/-- `Groupset._check_dc_sharing` (storage.py:1889-1910); `Except.error`
models the re-raised `CacheUpstreamError`. -/
def check_dc_sharing (env : EnvM) (c : CoupleM) : Except Unit Bool :=
  if env.forbidden_dc_sharing_among_groups then
    match (c.groups.map groupDcs).allSome with
    | none => .error ()
    | some dcs => .ok (dcsDisjoint [] dcs)
  else .ok true

/-- `Groupset._get_dc_sharing_status` (storage.py:2004-2016). -/
def dcSharingStatus (env : EnvM) (c : CoupleM) : Option StatusCode :=
  match check_dc_sharing env c with
  | .error _ => some .BAD
  | .ok true => none
  | .ok false => some .BROKEN

/-- `Groupset._get_broken_groups_status` (storage.py:2018-2024). -/
def brokenGroupsStatus (c : CoupleM) : Option StatusCode :=
  if c.groups.any (·.status == .BROKEN) then some .BROKEN else none

/-- `Groupset._get_bad_groups_status` (storage.py:2026-2045). -/
def badGroupsStatus (c : CoupleM) : Option StatusCode :=
  if c.groups.any (·.status == .BAD) then
    some ((jobServiceStatus c).getD .BAD)
  else none

/-- `Groupset._get_unmatched_total_space_status` (storage.py:2047-2056). -/
def unmatchedTotalSpaceStatus (env : EnvM) (c : CoupleM) : Option StatusCode :=
  if env.forbidden_unmatched_group_total_space then
    match (c.groups.filterMap GroupM.get_stat).map (·.total_space) with
    | [] => none
    | ts0 :: rest =>
        if rest.any (· ≠ ts0) then some .BROKEN else none
  else none

/-- `Groupset.ns_reserved_space_percentage` (storage.py:2116-2118):
`ns_settings.get(id, {}).get('reserved-space-percentage', 0.0)`. -/
def ns_reserved_space_percentage (env : EnvM) (ns : String) : ℚ :=
  ((env.ns_settings ns).map (·.reserved_space_percentage)).getD 0

/-- `Groupset.groups_effective_space` (storage.py:2112-2114): the `min` over
the groups (raises on an empty groups list in the source; the `0` default is
never reached by the claims). -/
def groups_effective_space (c : CoupleM) : ℤ :=
  match c.groups.map GroupM.effective_space with
  | [] => 0
  | e :: es => es.foldl min e

/-- `Groupset.effective_space` (storage.py:2124-2128). -/
def couple_effective_space (env : EnvM) (c : CoupleM) : ℤ :=
  ⌊(groups_effective_space c : ℚ) * (1 - ns_reserved_space_percentage env c.ns)⌋

/-- `Groupset.effective_free_space` (storage.py:2130-2136). -/
def couple_effective_free_space (env : EnvM) (c : CoupleM) : ℤ :=
  match groupset_get_stat c.groups with
  | none => 0
  | some stat =>
      ⌊max (stat.free_space -
        (stat.total_space - (couple_effective_space env c : ℚ))) 0⌋

/-- `Groupset.is_full` (storage.py:2096-2110). -/
def couple_is_full (env : EnvM) (c : CoupleM) : Bool :=
  let reserved := ns_reserved_space_percentage env c.ns
  if c.groups.any (fun g => g.node_backends.any
      (fun nb => backend_is_full nb.stat reserved)) then true
  else if couple_effective_free_space env c ≤ 0 then true
  else false

/-- `Couple._get_ro_groups_status` (storage.py:2422-2431). -/
def roGroupsStatus (c : CoupleM) : Option StatusCode :=
  if c.groups.any (·.status == .RO) then
    some ((jobServiceStatus c).getD .BAD)
  else none

/-- `Couple._get_migrating_groups_status` (storage.py:2433-2442). -/
def migratingGroupsStatus (c : CoupleM) : Option StatusCode :=
  if c.groups.any (·.status == .MIGRATING) then
    some ((jobServiceStatus c).getD .BAD)
  else none

/-- `Couple._get_init_groups_status` (storage.py:2444-2453). -/
def initGroupsStatus (c : CoupleM) : Option StatusCode :=
  if c.groups.any (·.status == .INIT) then
    some ((jobServiceStatus c).getD .BAD)
  else none

/-- `Couple._get_stalled_groups_status` (storage.py:2455-2464). -/
def stalledGroupsStatus (c : CoupleM) : Option StatusCode :=
  if c.groups.any (·.status == .STALLED) then
    some ((jobServiceStatus c).getD .BAD)
  else none

/-- The archived pre-check of `Couple._calculate_status`
(storage.py:2341-2349). -/
def archivedCheck (c : CoupleM) : Bool :=
  c.hasLrcGroupset &&
    c.groups.all (fun g => g.status == .INIT && g.node_backends.isEmpty)

/-- `Couple._calculate_status` (storage.py:2339-2420), code component. -/
def calculate_status (env : EnvM) (c : CoupleM) : StatusCode :=
  if archivedCheck c then .ARCHIVED
  else
    match metaUnavailableStatus c <|> improperNamespaceStatus c
        <|> unequalMetaStatus c <|> coupleFrozenStatus c with
    | some s => s
    | none =>
        match unsetNamespaceSettingsStatus env c <|> dcSharingStatus env c
            <|> brokenGroupsStatus c with
        | some s => s
        | none =>
            match badGroupsStatus c with
            | some s => s
            | none =>
                if c.hasLrcGroupset then
                  match roGroupsStatus c <|> migratingGroupsStatus c with
                  | some s => s
                  | none =>
                      if c.groups.all (·.status == .COUPLED) then .ARCHIVED
                      else .BAD
                else
                  match roGroupsStatus c <|> migratingGroupsStatus c
                      <|> initGroupsStatus c <|> stalledGroupsStatus c with
                  | some s => s
                  | none =>
                      if c.groups.all (·.status == .COUPLED) then
                        match unmatchedTotalSpaceStatus env c with
                        | some s => s
                        | none =>
                            if couple_is_full env c then .FULL else .OK
                      else .BAD

/-- **C2.** For every replicas couple with at least one BROKEN group and at
least one BAD group, when the earlier cascade predicates (archived, missing
meta, namespace mismatch, unequal meta, frozen, unset namespace settings, DC
sharing) do not match, `Couple._calculate_status` returns `BROKEN`: the
broken-groups check precedes the bad-groups check. -/
theorem couple_status_broken_over_bad (env : EnvM) (c : CoupleM)
    (h0 : archivedCheck c = false)
    (h1 : metaUnavailableStatus c = none)
    (h2 : improperNamespaceStatus c = none)
    (h3 : unequalMetaStatus c = none)
    (h4 : coupleFrozenStatus c = none)
    (h5 : unsetNamespaceSettingsStatus env c = none)
    (h6 : dcSharingStatus env c = none)
    (hbroken : ∃ g ∈ c.groups, g.status = .BROKEN)
    (_hbad : ∃ g ∈ c.groups, g.status = .BAD) :
    calculate_status env c = .BROKEN := by
  have hb : brokenGroupsStatus c = some .BROKEN := by
    unfold brokenGroupsStatus
    obtain ⟨g, hg, hgs⟩ := hbroken
    rw [if_pos]
    exact List.any_eq_true.mpr ⟨g, hg, by simp [hgs]⟩
  unfold calculate_status
  rw [h0, h1, h2, h3, h4, h5, h6, hb]
  rfl

/-- A BROKEN group used by the C2 witness. -/
def c2Group1 : GroupM :=
  { group_id := 1, status := .BROKEN, node_backends := [{ dc := some "a" }],
    meta := some { version := 2, couple := some [1, 2], ns := some "img",
                   frozen := some false, type := none, service := none,
                   lrc := none } }

/-- A BAD group used by the C2 witness. -/
def c2Group2 : GroupM :=
  { group_id := 2, status := .BAD, node_backends := [{ dc := some "b" }],
    meta := some { version := 2, couple := some [1, 2], ns := some "img",
                   frozen := some false, type := none, service := none,
                   lrc := none } }

/-- The couple used by the C2 witness. -/
def c2Couple : CoupleM := { groups := [c2Group1, c2Group2], ns := "img" }

/-- Witness for C2: a concrete couple with one BROKEN and one BAD group and
no earlier predicate firing computes to BROKEN. -/
theorem couple_status_broken_over_bad_witness :
    calculate_status {} c2Couple = .BROKEN :=
  couple_status_broken_over_bad {} c2Couple (by decide) (by decide)
    (by decide) (by decide) (by decide) (by decide) (by decide)
    ⟨c2Group1, by decide, by decide⟩ ⟨c2Group2, by decide, by decide⟩

/-- **C9, counterexample.** The claim bounds `backend.effective_space` by
`total_space − ceil(VFS_RESERVED_SPACE · total/vfs_total)` for every backend
with gathered statistics. For a backend whose filesystem is smaller than the
reserve (`total_space = vfs_total_space = 1`), the code clamps
`effective_space` at `0`, which exceeds the (negative) claimed bound. -/
theorem backend_effective_space_bound_fails :
    ¬((backend_effective_space
        (some { total_space := 1, vfs_total_space := 1, ts := some 1 }) : ℚ)
      ≤ (1 : ℚ) - (⌈VFS_RESERVED_SPACE * ((1 : ℚ) / 1)⌉ : ℤ)) := by
  intro h
  have he : backend_effective_space
      (some { total_space := 1, vfs_total_space := 1, ts := some 1 }) = 0 := by
    show (⌊max 0 ((1 : ℚ) -
      ((⌈VFS_RESERVED_SPACE * ((1 : ℚ) / 1)⌉ : ℤ) : ℚ))⌋ : ℤ) = 0
    norm_num [VFS_RESERVED_SPACE]
  rw [he] at h
  have hc : (⌈VFS_RESERVED_SPACE * ((1 : ℚ) / 1)⌉ : ℤ) = 112742891520 := by
    norm_num [VFS_RESERVED_SPACE]
  rw [hc] at h
  norm_num at h

/-- **C9, amended.** `backend.effective_space` equals the claimed bound
clamped at zero, hence is at most `max (total − ceil(reserve·total/vfs)) 0`;
whenever the reserve fits (`ceil(...) ≤ total_space`) the original bound
holds. The groupset part is unchanged: for a replicas groupset with groups,
`effective_space = floor(groups_effective_space · (1 − ns reserved pct))`. -/
theorem effective_space_amended :
    (∀ st : NodeBackendStat, 0 < st.vfs_total_space →
      (backend_effective_space (some st) : ℚ)
        ≤ max (st.total_space -
            (⌈VFS_RESERVED_SPACE * (st.total_space / st.vfs_total_space)⌉ : ℤ)) 0)
    ∧ (∀ st : NodeBackendStat, 0 < st.vfs_total_space →
      (⌈VFS_RESERVED_SPACE * (st.total_space / st.vfs_total_space)⌉ : ℚ)
          ≤ st.total_space →
      (backend_effective_space (some st) : ℚ)
        ≤ st.total_space -
            (⌈VFS_RESERVED_SPACE * (st.total_space / st.vfs_total_space)⌉ : ℤ))
    ∧ (∀ (env : EnvM) (c : CoupleM), c.groups ≠ [] →
      couple_effective_space env c =
        ⌊(groups_effective_space c : ℚ) *
          (1 - ns_reserved_space_percentage env c.ns)⌋) := by
  refine ⟨fun st hv => ?_, fun st hv hfit => ?_, fun env c hne => rfl⟩
  · show (↑⌊max 0 (st.total_space -
        ((⌈VFS_RESERVED_SPACE * (st.total_space / st.vfs_total_space)⌉ : ℤ) : ℚ))⌋ : ℚ)
      ≤ max (st.total_space -
        ((⌈VFS_RESERVED_SPACE * (st.total_space / st.vfs_total_space)⌉ : ℤ) : ℚ)) 0
    rw [max_comm]
    exact Int.floor_le _
  · show (↑⌊max 0 (st.total_space -
        ((⌈VFS_RESERVED_SPACE * (st.total_space / st.vfs_total_space)⌉ : ℤ) : ℚ))⌋ : ℚ)
      ≤ st.total_space -
        ((⌈VFS_RESERVED_SPACE * (st.total_space / st.vfs_total_space)⌉ : ℤ) : ℚ)
    have h0 : (0 : ℚ) ≤ st.total_space -
        ((⌈VFS_RESERVED_SPACE * (st.total_space / st.vfs_total_space)⌉ : ℤ) : ℚ) := by
      linarith
    calc (↑⌊max 0 (st.total_space -
          ((⌈VFS_RESERVED_SPACE * (st.total_space / st.vfs_total_space)⌉ : ℤ) : ℚ))⌋ : ℚ)
        ≤ max 0 (st.total_space -
          ((⌈VFS_RESERVED_SPACE * (st.total_space / st.vfs_total_space)⌉ : ℤ) : ℚ)) :=
          Int.floor_le _
      _ = _ := max_eq_right h0

/-- Witness for the amended C9 at a concrete backend and groupset. -/
theorem effective_space_amended_witness :
    ((backend_effective_space
        (some { total_space := 1, vfs_total_space := 1, ts := some 1 }) : ℚ)
      ≤ max ((1 : ℚ) - (⌈VFS_RESERVED_SPACE * ((1 : ℚ) / 1)⌉ : ℤ)) 0)
    ∧ couple_effective_space {} { groups := [{ group_id := 1 }], ns := "img" }
        = ⌊(groups_effective_space
              { groups := [{ group_id := 1 }], ns := "img" } : ℚ) *
            (1 - ns_reserved_space_percentage {} "img")⌋ :=
  ⟨effective_space_amended.1 _ (by norm_num),
   effective_space_amended.2.2 {} _ (by simp)⟩

/-! ## Groupset construction (storage.py, `Groupset.__init__`) -/

/-- `Groupset.__init__` (storage.py:1842-1861) acting on the groups' `couple`
back-pointers. `couple_of` maps a group id to the id of the groupset it
belongs to (`none` = uncoupled); `new_id` identifies the groupset being
constructed. The source sorts the groups, then runs one loop that checks
every group and raises `ValueError` on the first group already in a couple,
and only then a second loop that assigns the back-pointers (the source
comments that the loops must not be mixed). The function returns the raised
error, if any, together with the resulting back-pointer map. -/
def groupset_init (gids : List ℕ) (couple_of : ℕ → Option ℕ) (new_id : ℕ) :
    Except String Unit × (ℕ → Option ℕ) :=
  let sorted := pySorted gids
  match sorted.find? (fun g => (couple_of g).isSome) with
  | some _ => (.error "ValueError: Group is already in couple", couple_of)
  | none =>
      (.ok (), fun g => if g ∈ sorted then some new_id else couple_of g)

/-- **C10.** Constructing a groupset from a list of groups of which at least
one already belongs to a groupset raises `ValueError` and leaves the couple
back-pointer of every group unchanged: all groups are checked before any
back-pointer is assigned. -/
theorem groupset_init_no_partial_link (gids : List ℕ)
    (couple_of : ℕ → Option ℕ) (new_id : ℕ)
    (h : ∃ g ∈ gids, (couple_of g).isSome) :
    (groupset_init gids couple_of new_id).1 =
        .error "ValueError: Group is already in couple"
    ∧ ∀ g, (groupset_init gids couple_of new_id).2 g = couple_of g := by
  obtain ⟨g, hg, hcg⟩ := h
  have hmem : g ∈ pySorted gids :=
    (List.perm_insertionSort (· ≤ ·) gids).symm.subset hg
  have hfind : ((pySorted gids).find?
      (fun g => (couple_of g).isSome)).isSome := by
    rw [List.find?_isSome]
    exact ⟨g, hmem, hcg⟩
  obtain ⟨x, hx⟩ := Option.isSome_iff_exists.mp hfind
  unfold groupset_init
  simp only [hx]
  exact ⟨trivial, fun _ => trivial⟩

/-- Witness for C10: constructing a groupset over groups `[1, 2]` where group
`1` already belongs to groupset `5` fails and changes no back-pointer. -/
theorem groupset_init_no_partial_link_witness :
    (groupset_init [1, 2] (fun g => if g = 1 then some 5 else none) 7).1 =
        .error "ValueError: Group is already in couple"
    ∧ ∀ g, (groupset_init [1, 2]
        (fun g => if g = 1 then some 5 else none) 7).2 g =
        (fun g => if g = 1 then some 5 else none) g :=
  groupset_init_no_partial_link [1, 2] _ 7 ⟨1, by simp, by simp⟩

end Storage

namespace Balancer

open Storage

open scoped List

/-! ## Couple builder: group selection (balancer.py, `Balancer.__choose_groups`,
`Balancer.__weight_combination`, `Balancer.__choose_groups_to_couple`)

Node-type names and topology-unit names are strings. `units g` is the list of
per-backend unit dictionaries of group `g` (`units[group_id]` in the source),
each mapping a node type to the parent unit of that type. Python dict
iteration order is implementation-defined in the source; the embedding fixes
the insertion order, which is one sound refinement (none of the proved
properties depend on it). -/

/-- The per-level namespace state `ns_current_state[node_type]`: the per-unit
group counts and their average. -/
structure LevelState where
  avg : ℚ := 0
  nodes : List (String × ℚ) := []

/-- `comb_groups_count.setdefault(unit, 0); comb_groups_count[unit] += 1`. -/
def incUnit : List (String × ℚ) → String → List (String × ℚ)
  | [], u => [(u, 1)]
  | (k, v) :: rest, u =>
      if k = u then (k, v + 1) :: rest else (k, v) :: incUnit rest u

/-- `Balancer.__weight_combination` (balancer.py:770-777). -/
def weight_combination (st : LevelState) (comb : List (List String)) : ℚ :=
  let counts := comb.foldl (fun m selected_units =>
    selected_units.foldl incUnit m) st.nodes
  (counts.map (fun p => (p.2 - st.avg) ^ 2)).sum

/-- `groups_by_level_units.setdefault(level_units, []).append(group_id)`. -/
def addToBucket : List (List String × List ℕ) → List String → ℕ →
    List (List String × List ℕ)
  | [], k, g => [(k, [g])]
  | (k', gs) :: rest, k, g =>
      if k' = k then (k', gs ++ [g]) :: rest
      else (k', gs) :: addToBucket rest k g

/-- The `groups_by_level_units` dict (balancer.py:810-813). -/
def buildBuckets (key : ℕ → List String) (group_ids : List ℕ) :
    List (List String × List ℕ) :=
  group_ids.foldl (fun m g => addToBucket m (key g) g) []

/-- Dict lookup `groups_by_level_units[level_units]`. -/
def bucketOf (m : List (List String × List ℕ)) (k : List String) : List ℕ :=
  ((m.find? (fun p => p.1 == k)).map (·.2)).getD []

/-- `node_counts.setdefault(node, 0); node_counts[node] += 1`. -/
def addCount : List (List String × ℕ) → List String → List (List String × ℕ)
  | [], k => [(k, 1)]
  | (k', n) :: rest, k =>
      if k' = k then (k', n + 1) :: rest else (k', n) :: addCount rest k

/-- The `node_counts` multiplicity dict of the chosen combination
(balancer.py:856-859). -/
def countsOf (comb : List (List String)) : List (List String × ℕ) :=
  comb.foldl addCount []

/-- The combination filter of `Balancer.__choose_groups`
(balancer.py:836-842): under the forbidden-DC-sharing policy, at the DC node
type, a combination survives into the weighting only when no unit occurs
twice among its units together with the mandatory groups' units. -/
def dcValidCombs (flag : Bool) (dc_node_type node_type : String)
    (mandatory_units : List String) (combs : List (List (List String))) :
    List (List (List String)) :=
  combs.filter fun comb =>
    if flag && node_type == dc_node_type then
      (comb.flatten ++ mandatory_units).length ==
        ((comb.flatten ++ mandatory_units).dedup).length
    else true

/-- `sorted(weights.items(), key=...)[0][0]`: the first combination of least
weight (Python's stable sort keeps the earliest on ties). -/
def pickMinWeight (st : LevelState) : List (List (List String)) →
    List (List String)
  | [] => []
  | c :: cs =>
      (cs.foldl (fun b c' =>
        let w := weight_combination st c'
        if w < b.2 then (c', w) else b) (c, weight_combination st c)).1

/-- `tuple(gp[node_type] for gp in units[group_id])`. -/
def groupUnits (units : ℕ → List (String → String)) (node_type : String)
    (g : ℕ) : List String :=
  (units g).map (fun gp => gp node_type)

/-- `Balancer.__choose_groups` (balancer.py:793-889). The levels list is
consumed one node type per recursion step (`levels = levels[1:]`;
`node_type = levels[0]`); an empty or single-element list cannot arise from
the builder's calls. -/
def chooseGroups (flag : Bool) (dc_node_type : String)
    (nsState : String → LevelState) (units : ℕ → List (String → String))
    (mandatory : List ℕ) :
    List String → ℕ → List ℕ → List ℕ
  | [], _, _ => []
  | [_], _, _ => []
  | _ :: node_type :: rest, count, group_ids =>
      if group_ids.length < count then []
      else if count = 0 then []
      else
        let buckets := buildBuckets (groupUnits units node_type) group_ids
        let choice_list :=
          buckets.flatMap (fun p => List.replicate (min count p.2.length) p.1)
        let comb_set := (choice_list.sublistsLen count).dedup
        let mandatory_units := mandatory.flatMap (groupUnits units node_type)
        match dcValidCombs flag dc_node_type node_type mandatory_units
            comb_set with
        | [] => []
        | v0 :: vrest =>
            let best := pickMinWeight (nsState node_type) (v0 :: vrest)
            let node_counts := countsOf best
            let groups :=
              if rest.isEmpty then
                node_counts.flatMap (fun p => (bucketOf buckets p.1).take p.2)
              else
                node_counts.flatMap (fun p =>
                  chooseGroups flag dc_node_type nsState units mandatory
                    (node_type :: rest) p.2 (bucketOf buckets p.1))
            if groups.length < count then [] else groups

/-- `Balancer.__weight_couple_groups` (balancer.py:779-791). -/
def weight_couple_groups (nsState : String → LevelState)
    (units : ℕ → List (String → String)) (levels : List String)
    (group_ids : List ℕ) : List ℚ :=
  (levels.drop 1).map (fun node_type =>
    weight_combination (nsState node_type)
      (group_ids.map (groupUnits units node_type)))

/-- Strict lexicographic order on rational lists (Python list comparison). -/
def qListLt : List ℚ → List ℚ → Bool
  | [], [] => false
  | [], _ :: _ => true
  | _ :: _, [] => false
  | a :: as, b :: bs => if a < b then true else if b < a then false else qListLt as bs

/-- Strict lexicographic order on id lists (Python list comparison). -/
def nListLt : List ℕ → List ℕ → Bool
  | [], [] => false
  | [], _ :: _ => true
  | _ :: _, [] => false
  | a :: as, b :: bs => if a < b then true else if b < a then false else nListLt as bs

/-- `Balancer.__choose_groups_to_couple` (balancer.py:1029-1059). The final
pick is `sorted([(weight_vector, candidate), ...])[0][1]`: lexicographic on
the pair. -/
def chooseGroupsToCouple (flag : Bool) (dc_node_type : String)
    (nsState : String → LevelState) (units : ℕ → List (String → String))
    (levels : List String) (count : ℕ)
    (groups_by_total_space : List (ℚ × List ℕ)) (mandatory : List ℕ) :
    Option (List ℕ) :=
  let candidates := groups_by_total_space.filterMap (fun p =>
    if mandatory.all (· ∈ p.2) then
      let free_group_ids := p.2.filter (· ∉ mandatory)
      let candidate :=
        chooseGroups flag dc_node_type nsState units mandatory levels
          (count - mandatory.length) free_group_ids ++ mandatory
      if candidate.length = count then some candidate else none
    else none)
  match candidates with
  | [] => none
  | c :: cs =>
      some ((cs.foldl (fun b c' =>
        let wb := weight_couple_groups nsState units levels b
        let wc := weight_couple_groups nsState units levels c'
        if qListLt wc wb || (wc == wb && nListLt c' b) then c' else b) c))

/-! Auxiliary facts about the bucket and count dictionaries, used to settle the
DC-diversity claim. -/

lemma addToBucket_inv {Q : ℕ → Prop} {key : ℕ → List String} :
    ∀ (m : List (List String × List ℕ)) (k : List String) (g : ℕ),
      (∀ p ∈ m, ∀ x ∈ p.2, key x = p.1 ∧ Q x) → key g = k → Q g →
      ∀ p ∈ addToBucket m k g, ∀ x ∈ p.2, key x = p.1 ∧ Q x
  | [], k, g, _, hk, hq, p, hp, x, hx => by
      simp [addToBucket] at hp
      subst hp
      simp at hx
      subst hx
      exact ⟨hk, hq⟩
  | (k', gs) :: rest, k, g, hinv, hk, hq, p, hp, x, hx => by
      by_cases hkk : k' = k
      · simp only [addToBucket, if_pos hkk] at hp
        rcases List.mem_cons.mp hp with hp | hp
        · subst hp
          simp only [List.mem_append, List.mem_singleton] at hx
          rcases hx with hx | hx
          · exact hinv (k', gs) (List.mem_cons_self _ _) x hx
          · subst hx; subst hkk; exact ⟨hk, hq⟩
        · exact hinv p (List.mem_cons_of_mem _ hp) x hx
      · simp only [addToBucket, if_neg hkk] at hp
        rcases List.mem_cons.mp hp with hp | hp
        · subst hp
          exact hinv (k', gs) (List.mem_cons_self _ _) x hx
        · exact addToBucket_inv rest k g
            (fun p hp => hinv p (List.mem_cons_of_mem _ hp)) hk hq p hp x hx

lemma foldl_buckets_inv {Q : ℕ → Prop} {key : ℕ → List String} :
    ∀ (gs : List ℕ) (m : List (List String × List ℕ)),
      (∀ p ∈ m, ∀ x ∈ p.2, key x = p.1 ∧ Q x) → (∀ g ∈ gs, Q g) →
      ∀ p ∈ gs.foldl (fun m g => addToBucket m (key g) g) m,
        ∀ x ∈ p.2, key x = p.1 ∧ Q x
  | [], m, hinv, _ => hinv
  | g :: gs, m, hinv, hq => by
      simp only [List.foldl_cons]
      exact foldl_buckets_inv gs _
        (addToBucket_inv m (key g) g hinv rfl (hq g (List.mem_cons_self _ _)))
        (fun x hx => hq x (List.mem_cons_of_mem _ hx))

lemma mem_bucketOf_buildBuckets {key : ℕ → List String} {gids : List ℕ}
    {k : List String} {g : ℕ} (h : g ∈ bucketOf (buildBuckets key gids) k) :
    key g = k ∧ g ∈ gids := by
  unfold bucketOf at h
  cases hf : (buildBuckets key gids).find? (fun p => p.1 == k) with
  | none => rw [hf] at h; simp at h
  | some p =>
      rw [hf] at h
      simp at h
      have hpmem : p ∈ buildBuckets key gids := List.mem_of_find?_eq_some hf
      have hpk : p.1 = k := by
        have := List.find?_some hf
        simpa using this
      have := foldl_buckets_inv (Q := (· ∈ gids)) gids []
        (by intro p hp; simp at hp) (fun _ h => h) p hpmem g h
      rw [hpk] at this
      exact this

lemma addCount_flatMap_perm (m : List (List String × ℕ)) (k : List String) :
    (addCount m k).flatMap (fun p => List.replicate p.2 p.1) ~
      m.flatMap (fun p => List.replicate p.2 p.1) ++ [k] := by
  induction m with
  | nil => simp [addCount]
  | cons q rest ih =>
      obtain ⟨k', n⟩ := q
      by_cases hkk : k' = k
      · subst hkk
        have ha : addCount ((k', n) :: rest) k' = (k', n + 1) :: rest := by
          simp [addCount]
        rw [ha, List.flatMap_cons, List.flatMap_cons]
        have hr : List.replicate (n + 1) k' = k' :: List.replicate n k' := rfl
        rw [hr]
        exact (List.perm_append_singleton k'
          (List.replicate n k' ++
            rest.flatMap (fun p => List.replicate p.2 p.1))).symm
      · have ha : addCount ((k', n) :: rest) k = (k', n) :: addCount rest k := by
          simp [addCount, hkk]
        rw [ha, List.flatMap_cons, List.flatMap_cons]
        simpa [List.append_assoc] using
          List.Perm.append_left (List.replicate n k') ih

lemma foldl_addCount_perm :
    ∀ (comb : List (List String)) (m : List (List String × ℕ)),
      (comb.foldl addCount m).flatMap (fun p => List.replicate p.2 p.1) ~
        m.flatMap (fun p => List.replicate p.2 p.1) ++ comb
  | [], m => by simp
  | k :: comb, m => by
      simp only [List.foldl_cons]
      calc ((comb.foldl addCount (addCount m k)).flatMap
            (fun p => List.replicate p.2 p.1))
          ~ (addCount m k).flatMap (fun p => List.replicate p.2 p.1) ++ comb :=
            foldl_addCount_perm comb (addCount m k)
        _ ~ (m.flatMap (fun p => List.replicate p.2 p.1) ++ [k]) ++ comb :=
            (addCount_flatMap_perm m k).append_right _
        _ ~ _ := by rw [List.append_assoc]; simp

lemma countsOf_perm (comb : List (List String)) :
    (countsOf comb).flatMap (fun p => List.replicate p.2 p.1) ~ comb := by
  have := foldl_addCount_perm comb []
  simpa [countsOf] using this

lemma pickMinWeight_mem_aux (st : LevelState) :
    ∀ (cs : List (List (List String))) (b : List (List String) × ℚ)
      (S : List (List (List String))), b.1 ∈ S → (∀ c ∈ cs, c ∈ S) →
      (cs.foldl (fun b c' =>
        let w := weight_combination st c'
        if w < b.2 then (c', w) else b) b).1 ∈ S
  | [], b, S, hb, _ => hb
  | c :: cs, b, S, hb, hcs => by
      simp only [List.foldl_cons]
      by_cases hw : weight_combination st c < b.2
      · exact pickMinWeight_mem_aux st cs _ S
          (by simp [hw]; exact hcs c (List.mem_cons_self _ _))
          (fun x hx => hcs x (List.mem_cons_of_mem _ hx))
      · exact pickMinWeight_mem_aux st cs _ S (by simp [hw]; exact hb)
          (fun x hx => hcs x (List.mem_cons_of_mem _ hx))

lemma pickMinWeight_mem (st : LevelState) (v0 : List (List String))
    (vrest : List (List (List String))) :
    pickMinWeight st (v0 :: vrest) ∈ v0 :: vrest := by
  unfold pickMinWeight
  exact pickMinWeight_mem_aux st vrest _ _ (List.mem_cons_self _ _)
    (fun c hc => List.mem_cons_of_mem _ hc)

lemma length_eq_dedup_length_iff {α : Type} [DecidableEq α] (l : List α) :
    l.length = l.dedup.length ↔ l.Nodup := by
  constructor
  · intro h
    have hd := (List.dedup_sublist l).eq_of_length h.symm
    rw [← hd]
    exact List.nodup_dedup l
  · intro h
    rw [List.dedup_eq_self.mpr h]

/-- Membership characterisation of the DC filter: with the policy on, at the
DC node type, a combination survives iff no DC unit repeats among its units
plus the mandatory units. -/
lemma mem_dcValidCombs_iff (dc_node_type : String)
    (mandatory_units : List String) (combs : List (List (List String)))
    (comb : List (List String)) :
    comb ∈ dcValidCombs true dc_node_type dc_node_type mandatory_units combs
      ↔ comb ∈ combs ∧ (comb.flatten ++ mandatory_units).Nodup := by
  unfold dcValidCombs
  rw [List.mem_filter]
  simp only [Bool.and_self, beq_self_eq_true, if_pos, true_and, beq_iff_eq]
  constructor
  · rintro ⟨hm, he⟩
    refine ⟨hm, ?_⟩
    rw [← length_eq_dedup_length_iff]
    simpa using he
  · rintro ⟨hm, hn⟩
    refine ⟨hm, ?_⟩
    simpa using (length_eq_dedup_length_iff _).mpr hn

lemma mem_of_mem_dcValidCombs {flag : Bool} {dc_node_type node_type : String}
    {mand : List String} {combs : List (List (List String))}
    {comb : List (List String)}
    (h : comb ∈ dcValidCombs flag dc_node_type node_type mand combs) :
    comb ∈ combs := by
  unfold dcValidCombs at h
  exact (List.mem_filter.mp h).1

lemma flatMap_length_le {β : Type} (ncs : List (β × ℕ)) (f : β × ℕ → List ℕ)
    (h : ∀ p ∈ ncs, (f p).length ≤ p.2) :
    (ncs.flatMap f).length ≤ (ncs.map Prod.snd).sum := by
  induction ncs with
  | nil => simp
  | cons p rest ih =>
      simp only [List.flatMap_cons, List.length_append, List.map_cons,
        List.sum_cons]
      have h1 := h p (List.mem_cons_self _ _)
      have h2 := ih (fun q hq => h q (List.mem_cons_of_mem _ hq))
      omega

lemma length_flatMap_replicate (ncs : List (List String × ℕ)) :
    (ncs.flatMap (fun p => List.replicate p.2 p.1)).length =
      (ncs.map Prod.snd).sum := by
  induction ncs with
  | nil => simp
  | cons p rest ih =>
      simp [List.flatMap_cons, ih]

lemma sum_countsOf (comb : List (List String)) :
    ((countsOf comb).map Prod.snd).sum = comb.length := by
  have hp := (countsOf_perm comb).length_eq
  rw [← hp, length_flatMap_replicate]

/-- Every list returned by `__choose_groups` has at most `count` elements. -/
theorem chooseGroups_length_le (flag : Bool) (dc_node_type : String)
    (nsState : String → LevelState) (units : ℕ → List (String → String))
    (mandatory : List ℕ) :
    ∀ (levels : List String) (count : ℕ) (gids : List ℕ),
      (chooseGroups flag dc_node_type nsState units mandatory levels count
        gids).length ≤ count
  | [], count, gids => by simp [chooseGroups]
  | [l0], count, gids => by simp [chooseGroups]
  | l0 :: nt :: rest, count, gids => by
      simp only [chooseGroups]
      by_cases h1 : gids.length < count
      · simp [h1]
      rw [if_neg h1]
      by_cases h2 : count = 0
      · simp [h2]
      rw [if_neg h2]
      split
      · simp
      · next v0 vrest hval =>
          have hbest_mem : pickMinWeight (nsState nt) (v0 :: vrest)
              ∈ v0 :: vrest := pickMinWeight_mem _ _ _
          rw [← hval] at hbest_mem
          have hbest_cs := mem_of_mem_dcValidCombs hbest_mem
          rw [hval] at hbest_cs
          have hbest_len : (pickMinWeight (nsState nt) (v0 :: vrest)).length
              = count :=
            List.length_of_sublistsLen (List.mem_dedup.mp hbest_cs)
          have hsum : ((countsOf (pickMinWeight (nsState nt)
              (v0 :: vrest))).map Prod.snd).sum = count := by
            rw [sum_countsOf, hbest_len]
          by_cases hleaf : rest.isEmpty = true
          · rw [if_pos hleaf]
            split_ifs with h3
            · simp
            · calc ((countsOf (pickMinWeight (nsState nt) (v0 :: vrest))).flatMap
                    (fun p => (bucketOf
                      (buildBuckets (groupUnits units nt) gids) p.1).take
                        p.2)).length
                  ≤ ((countsOf (pickMinWeight (nsState nt)
                      (v0 :: vrest))).map Prod.snd).sum :=
                    flatMap_length_le _ _ (fun p _ => by
                      simp)
                _ = count := hsum
          · rw [if_neg hleaf]
            split_ifs with h3
            · simp
            · calc ((countsOf (pickMinWeight (nsState nt) (v0 :: vrest))).flatMap
                    (fun p => chooseGroups flag dc_node_type nsState units
                      mandatory (nt :: rest) p.2 (bucketOf
                        (buildBuckets (groupUnits units nt) gids) p.1))).length
                  ≤ ((countsOf (pickMinWeight (nsState nt)
                      (v0 :: vrest))).map Prod.snd).sum :=
                    flatMap_length_le _ _ (fun p _ =>
                      chooseGroups_length_le flag dc_node_type nsState units
                        mandatory (nt :: rest) p.2 _)
                _ = count := hsum

/-- Every group returned by `__choose_groups` comes from the candidate list. -/
theorem chooseGroups_subset (flag : Bool) (dc_node_type : String)
    (nsState : String → LevelState) (units : ℕ → List (String → String))
    (mandatory : List ℕ) :
    ∀ (levels : List String) (count : ℕ) (gids : List ℕ),
      ∀ g ∈ chooseGroups flag dc_node_type nsState units mandatory levels
        count gids, g ∈ gids
  | [], count, gids => by simp [chooseGroups]
  | [l0], count, gids => by simp [chooseGroups]
  | l0 :: nt :: rest, count, gids => by
      simp only [chooseGroups]
      by_cases h1 : gids.length < count
      · simp [h1]
      rw [if_neg h1]
      by_cases h2 : count = 0
      · simp [h2]
      rw [if_neg h2]
      split
      · simp
      · next v0 vrest hval =>
          by_cases hleaf : rest.isEmpty = true
          · rw [if_pos hleaf]
            split_ifs with h3
            · simp
            · intro g hg
              obtain ⟨p, _, hgp⟩ := List.mem_flatMap.mp hg
              exact (mem_bucketOf_buildBuckets (List.mem_of_mem_take hgp)).2
          · rw [if_neg hleaf]
            split_ifs with h3
            · simp
            · intro g hg
              obtain ⟨p, _, hgp⟩ := List.mem_flatMap.mp hg
              have := chooseGroups_subset flag dc_node_type nsState units
                mandatory (nt :: rest) p.2 _ g hgp
              exact (mem_bucketOf_buildBuckets this).2

lemma flatMap_const_key (κ : ℕ → List String) (k : List String) :
    ∀ (r : List ℕ), (∀ g ∈ r, κ g = k) →
      r.flatMap κ = (List.replicate r.length k).flatten
  | [], _ => rfl
  | g :: r, h => by
      simp only [List.flatMap_cons, List.length_cons, List.replicate_succ,
        List.flatten_cons]
      rw [h g (List.mem_cons_self _ _),
        flatMap_const_key κ k r (fun x hx => h x (List.mem_cons_of_mem _ hx))]

lemma flatten_replicate_sublist (k : List String) :
    ∀ {a b : ℕ}, a ≤ b →
      (List.replicate a k).flatten <+ (List.replicate b k).flatten := by
  intro a b hab
  induction b generalizing a with
  | zero =>
      have : a = 0 := Nat.le_zero.mp hab
      subst this
      exact List.Sublist.refl _
  | succ b ih =>
      cases a with
      | zero => exact List.nil_sublist _
      | succ a =>
          simp only [List.replicate_succ, List.flatten_cons]
          exact (ih (Nat.succ_le_succ_iff.mp hab)).append_left k

lemma flatMap_sublist {β : Type} (ncs : List β) (f g : β → List String)
    (h : ∀ p ∈ ncs, f p <+ g p) : ncs.flatMap f <+ ncs.flatMap g := by
  induction ncs with
  | nil => exact List.Sublist.refl _
  | cons p rest ih =>
      simp only [List.flatMap_cons]
      exact (h p (List.mem_cons_self _ _)).append
        (ih (fun q hq => h q (List.mem_cons_of_mem _ hq)))

lemma flatten_flatMap {β : Type} (l : List β) (f : β → List (List String)) :
    (l.flatMap f).flatten = l.flatMap (fun x => (f x).flatten) := by
  induction l with
  | nil => rfl
  | cons x rest ih =>
      simp only [List.flatMap_cons, List.flatten_append, ih]

/-- The core of the DC-diversity argument: distributing the chosen
combination's multiplicities into per-bucket selections cannot introduce a
duplicated DC unit. -/
lemma dc_nodup_core (κ : ℕ → List String) (mandatory : List ℕ)
    (best : List (List String)) (f : List String × ℕ → List ℕ)
    (hnodup : (best.flatten ++ mandatory.flatMap κ).Nodup)
    (hkey : ∀ p ∈ countsOf best, ∀ g ∈ f p, κ g = p.1)
    (hlen : ∀ p ∈ countsOf best, (f p).length ≤ p.2) :
    (((countsOf best).flatMap f ++ mandatory).flatMap κ).Nodup := by
  rw [List.flatMap_append, List.flatMap_assoc]
  have h3 : (countsOf best).flatMap (fun p => (f p).flatMap κ) <+
      (countsOf best).flatMap (fun p => (List.replicate p.2 p.1).flatten) :=
    flatMap_sublist _ _ _ (fun p hp => by
      rw [flatMap_const_key κ p.1 (f p) (hkey p hp)]
      exact flatten_replicate_sublist p.1 (hlen p hp))
  have h4 : (countsOf best).flatMap (fun p => (List.replicate p.2 p.1).flatten)
      = ((countsOf best).flatMap (fun p => List.replicate p.2 p.1)).flatten :=
    (flatten_flatMap _ _).symm
  rw [h4] at h3
  have h5 : ((countsOf best).flatMap
      (fun p => List.replicate p.2 p.1)).flatten ~ best.flatten :=
    (countsOf_perm best).flatten
  have hsub : (countsOf best).flatMap (fun p => (f p).flatMap κ)
      ++ mandatory.flatMap κ <+
      ((countsOf best).flatMap (fun p => List.replicate p.2 p.1)).flatten
      ++ mandatory.flatMap κ :=
    h3.append (List.Sublist.refl _)
  have hperm : best.flatten ++ mandatory.flatMap κ ~
      ((countsOf best).flatMap (fun p => List.replicate p.2 p.1)).flatten
      ++ mandatory.flatMap κ :=
    (h5.symm).append_right _
  exact List.Nodup.sublist hsub (hperm.nodup hnodup)

/-- **C5.** Under the `forbidden_dc_sharing_among_groups` policy: (i) at the
DC node type, every candidate combination in which any DC unit appears more
than once among the chosen units together with the mandatory groups' units is
rejected from the weighting; (ii) consequently, whenever the selection whose
first level is the DC node type succeeds, no DC unit repeats among the units
of the selected groups together with the mandatory groups — no two groups of
the couple (counting mandatory groups) occupy the same DC. -/
theorem builder_dc_sharing_policy :
    (∀ (dc_node_type : String) (mandatory_units : List String)
        (combs : List (List (List String))) (comb : List (List String)),
      comb ∈ combs → ¬(comb.flatten ++ mandatory_units).Nodup →
      comb ∉ dcValidCombs true dc_node_type dc_node_type mandatory_units combs)
    ∧ (∀ (dc_node_type l0 : String) (nsState : String → LevelState)
        (units : ℕ → List (String → String)) (mandatory : List ℕ)
        (rest : List String) (count : ℕ) (gids : List ℕ),
      chooseGroups true dc_node_type nsState units mandatory
          (l0 :: dc_node_type :: rest) count gids ≠ [] →
      ((chooseGroups true dc_node_type nsState units mandatory
          (l0 :: dc_node_type :: rest) count gids ++ mandatory).flatMap
        (groupUnits units dc_node_type)).Nodup) := by
  constructor
  · intro dc_node_type mandatory_units combs comb _ hnd hmem
    exact hnd ((mem_dcValidCombs_iff _ _ _ _).mp hmem).2
  · intro dcnt l0 nsState units mandatory rest count gids hne
    simp only [chooseGroups] at hne ⊢
    by_cases h1 : gids.length < count
    · rw [if_pos h1] at hne; exact absurd rfl hne
    rw [if_neg h1] at hne ⊢
    by_cases h2 : count = 0
    · rw [if_pos h2] at hne; exact absurd rfl hne
    rw [if_neg h2] at hne ⊢
    split at hne
    · exact absurd rfl hne
    · next v0 vrest hval =>
        have hbest_mem : pickMinWeight (nsState dcnt) (v0 :: vrest)
            ∈ v0 :: vrest := pickMinWeight_mem _ _ _
        rw [← hval] at hbest_mem
        have hnodup := ((mem_dcValidCombs_iff _ _ _ _).mp hbest_mem).2
        rw [hval] at hnodup
        by_cases hleaf : rest.isEmpty = true
        · rw [if_pos hleaf] at hne ⊢
          split at hne
          · exact absurd rfl hne
          · next hcnt =>
              rw [if_neg hcnt]
              refine dc_nodup_core _ _ _ _ hnodup ?_ ?_
              · intro p hp g hg
                exact (mem_bucketOf_buildBuckets (List.mem_of_mem_take hg)).1
              · intro p hp
                simp
        · rw [if_neg hleaf] at hne ⊢
          split at hne
          · exact absurd rfl hne
          · next hcnt =>
              rw [if_neg hcnt]
              refine dc_nodup_core _ _ _ _ hnodup ?_ ?_
              · intro p hp g hg
                have := chooseGroups_subset true dcnt nsState units mandatory
                  (dcnt :: rest) p.2 _ g hg
                exact (mem_bucketOf_buildBuckets this).1
              · intro p hp
                exact chooseGroups_length_le true dcnt nsState units mandatory
                  (dcnt :: rest) p.2 _

/-- Concrete two-group topology used by the C5 witness: group 1 in DC `da` on
host `h1`, group 2 in DC `db` on host `h2`. -/
def c5units : ℕ → List (String → String) :=
  fun g =>
    if g = 1 then [fun nt => if nt = "dc" then "da" else "h1"]
    else [fun nt => if nt = "dc" then "db" else "h2"]

/-- Witness for C5: a successful two-group selection over two DCs yields
groups with pairwise-distinct DC units. -/
theorem builder_dc_sharing_policy_witness :
    ((chooseGroups true "dc" (fun _ => ({} : LevelState)) c5units []
        ["root", "dc", "hdd"] 2 [1, 2] ++ []).flatMap
      (groupUnits c5units "dc")).Nodup :=
  builder_dc_sharing_policy.2 "dc" "root" (fun _ => ({} : LevelState)) c5units
    [] ["hdd"] 2 [1, 2] (by decide)

/-! ## Consistent metakey write (balancer.py, `consistent_write`)

`h.write_retry` and `h.remove_retry` live in `helpers.py`, which is not among
the provided sources; modelled from the spec, each write/removal either
eventually succeeds or fails per group after the bounded retries, recorded by
the oracles `writeOk`/`removeOk`. -/

/-- The outcome of `consistent_write`: which groups a rollback removal was
attempted on, which of those removals failed, and whether the call raised. -/
structure ConsistentWriteResult where
  removal_attempted : List ℕ
  removal_failed : List ℕ
  raised : Bool
deriving DecidableEq, Repr

/-- `consistent_write` (balancer.py:1830-1866). `session_groups` models
`s.groups`; `set(...)` is modelled by `dedup`. -/
def consistent_write (writeOk removeOk : ℕ → Bool) (rollback_on_error : Bool)
    (session_groups : List ℕ) : ConsistentWriteResult :=
  let groups := session_groups.dedup
  let suc_groups := groups.filter writeOk
  let failed_groups := groups.filter (fun g => !writeOk g)
  if failed_groups.isEmpty then
    { removal_attempted := [], removal_failed := [], raised := false }
  else if rollback_on_error then
    { removal_attempted := suc_groups
      removal_failed := suc_groups.filter (fun g => !removeOk g)
      raised := true }
  else
    { removal_attempted := [], removal_failed := [], raised := true }

/-- **C7.** For every consistent metakey write that succeeds on only a proper
subset of the target groups: when rollback is enabled the key removal is
attempted on exactly the groups that accepted the write, and in all cases —
rollback attempted or not, rollback successful or not — the operation raises,
so a partial write is always reported as a failure. -/
theorem consistent_write_partial_failure (writeOk removeOk : ℕ → Bool)
    (rollback_on_error : Bool) (session_groups : List ℕ)
    (hfail : ∃ g ∈ session_groups, writeOk g = false) :
    (consistent_write writeOk removeOk rollback_on_error
        session_groups).raised = true
    ∧ (rollback_on_error = true →
      (consistent_write writeOk removeOk rollback_on_error
          session_groups).removal_attempted =
        session_groups.dedup.filter writeOk)
    ∧ (rollback_on_error = false →
      (consistent_write writeOk removeOk rollback_on_error
          session_groups).removal_attempted = []) := by
  obtain ⟨g, hg, hgw⟩ := hfail
  have hne : ¬(session_groups.dedup.filter (fun g => !writeOk g)).isEmpty := by
    rw [List.isEmpty_iff]
    intro hnil
    have : g ∈ session_groups.dedup.filter (fun g => !writeOk g) :=
      List.mem_filter.mpr ⟨List.mem_dedup.mpr hg, by simp [hgw]⟩
    rw [hnil] at this
    exact absurd this (List.not_mem_nil g)
  unfold consistent_write
  rw [if_neg hne]
  cases rollback_on_error with
  | true => exact ⟨rfl, fun _ => rfl, fun h => absurd h (by decide)⟩
  | false => exact ⟨rfl, fun h => absurd h (by decide), fun _ => rfl⟩

/-- Witness for C7 at a concrete partial write: groups `{1, 2}`, the write
succeeds only on group `1`, rollback enabled. -/
theorem consistent_write_partial_failure_witness :
    (consistent_write (fun g => g == 1) (fun _ => true) true [1, 2]).raised
        = true
    ∧ (true = true →
      (consistent_write (fun g => g == 1) (fun _ => true) true
          [1, 2]).removal_attempted =
        ([1, 2] : List ℕ).dedup.filter (fun g => g == 1))
    ∧ (true = false →
      (consistent_write (fun g => g == 1) (fun _ => true) true
          [1, 2]).removal_attempted = []) :=
  consistent_write_partial_failure (fun g => g == 1) (fun _ => true) true
    [1, 2] ⟨2, by decide, by decide⟩

/-! ## Couple build (balancer.py, `Balancer._build_couple`,
`Balancer.__couple_groups`, `get_unsuitable_uncoupled_group_ids`,
`Balancer._locked_uncoupled_groups`)

The external effects are oracles: `lockFails g` — acquiring the persistent
lock `group/<g>` fails; `readErr g` — the storage error code returned when
reading `SYMMETRIC_GROUPS_KEY` from group `g`; `writeOk g` — the metakey
write to `g` eventually succeeds; `lrcSelect skip` — the first 12-tuple the
external LRC builder yields (`none` = `StopIteration`). The cluster-model
state tracks the candidate buckets, the groupset repositories and the
namespaces; repositories are multisets of group-id lists. -/

/-- `get_unsuitable_uncoupled_group_ids` (balancer.py:1887-1925): a group is
suitable iff reading the metakey yields storage error code `-2`; the source
pops results in arbitrary dict order, which only permutes the returned
list. -/
def get_unsuitable_uncoupled_group_ids (readErr : ℕ → ℤ) (group_ids : List ℕ) :
    List ℕ :=
  group_ids.filter (fun g => readErr g ≠ -2)

/-- `Balancer._remove_unusable_groups` (balancer.py:656-662). The source
removes each group from the first bucket containing it; buckets partition the
uncoupled groups by total space, so this equals removal from every bucket. -/
def remove_unusable_groups (gbts : List (ℚ × List ℕ)) (groups : List ℕ) :
    List (ℚ × List ℕ) :=
  gbts.map (fun p => (p.1, p.2.filter (· ∉ groups)))

/-- A namespace record: its id and the groupsets attached to it. -/
structure NsRec where
  id : String
  couples : Multiset (List ℕ)
  lrcGroupsets : Multiset (List ℕ)
deriving DecidableEq

/-- The part of the cluster model `_build_couple` mutates. -/
structure ClusterState where
  gbts : List (ℚ × List ℕ)
  namespaces : List NsRec
  replicas_groupsets : Multiset (List ℕ)
  lrc_groupsets : Multiset (List ℕ)
deriving DecidableEq

/-- `storage.namespaces.add` when the namespace is absent
(balancer.py:979-982). -/
def ensureNs (nss : List NsRec) (ns : String) : List NsRec :=
  if nss.any (·.id == ns) then nss else nss ++ [⟨ns, 0, 0⟩]

/-- Apply an update to the namespace record with the given id. -/
def nsUpdate (nss : List NsRec) (ns : String) (f : NsRec → NsRec) :
    List NsRec :=
  nss.map (fun r => if r.id == ns then f r else r)

/-- `replicas_groupsets.add` + `Lrc822v1Groupset` creation +
`ns.add_couple`/`ns.add_groupset` (balancer.py:959-985). -/
def addCoupleAndGroupsets (st : ClusterState) (ns : String) (c : List ℕ)
    (ggs : List (List ℕ)) : ClusterState :=
  { st with
    replicas_groupsets := c ::ₘ st.replicas_groupsets
    lrc_groupsets := ggs.foldl (fun m g => g ::ₘ m) st.lrc_groupsets
    namespaces :=
      nsUpdate (ensureNs st.namespaces ns) ns (fun r =>
        { r with
          couples := c ::ₘ r.couples
          lrcGroupsets := ggs.foldl (fun m g => g ::ₘ m) r.lrcGroupsets }) }

/-- `Groupset.destroy` of a replicas groupset (storage.py:2080-2092): detach
from its namespace and remove from the replicas repository. A linked LRC
sibling groupset is not destroyed. -/
def destroyCouple (st : ClusterState) (ns : String) (c : List ℕ) :
    ClusterState :=
  { st with
    namespaces := nsUpdate st.namespaces ns
      (fun r => { r with couples := r.couples.erase c })
    replicas_groupsets := st.replicas_groupsets.erase c }

/-- `Groupset.destroy` of an LRC groupset. -/
def destroyLrcGroupset (st : ClusterState) (ns : String) (g : List ℕ) :
    ClusterState :=
  { st with
    namespaces := nsUpdate st.namespaces ns
      (fun r => { r with lrcGroupsets := r.lrcGroupsets.erase g })
    lrc_groupsets := st.lrc_groupsets.erase g }

/-- The oracles and fixed arguments of one `_build_couple` call. -/
structure BuildEnv where
  flag : Bool
  dc_node_type : String
  nsState : String → LevelState
  units : ℕ → List (String → String)
  levels : List String
  size : ℕ
  mandatory : List ℕ
  ns : String
  lrcRequests : ℕ
  dry_run : Bool
  lockFails : ℕ → Bool
  readErr : ℕ → ℤ
  writeOk : ℕ → Bool
  lrcSelect : List ℕ → Option (List ℕ)

/-- One outcome of a `while True` iteration of `_build_couple`. -/
inductive BuildStep where
  | stop                      -- `return None`
  | retry                     -- `continue`
  | built (couple : List ℕ)   -- `return couple`
  | error                     -- exception propagated
deriving DecidableEq, Repr

/-- The metakey writes that succeed before the first failing LRC groupset
write (balancer.py:999-1009), and whether all succeeded. -/
def writtenLrcPrefix (writeOk : ℕ → Bool) : List (List ℕ) →
    List (List ℕ) × Bool
  | [] => ([], true)
  | g :: rest =>
      if g.all writeOk then
        let (w, ok) := writtenLrcPrefix writeOk rest
        (g :: w, ok)
      else ([], false)

/-- One iteration of the `while True` loop of `Balancer._build_couple`
(balancer.py:902-1027). Returns the outcome, the updated cluster state and
the log of metakey writes performed (one entry per groupset whose
`write_groupset_metakey` succeeded). The `_locked_uncoupled_groups` context is
inlined: on a partial lock failure only the contended groups leave the
candidate buckets and the iteration continues; after a full acquisition the
`finally` handler removes every involved group from the buckets on each exit
path. -/
def buildCoupleIter (env : BuildEnv) (st : ClusterState) :
    BuildStep × ClusterState × List (List ℕ) :=
  match chooseGroupsToCouple env.flag env.dc_node_type env.nsState env.units
      env.levels env.size st.gbts env.mandatory with
  | none => (.stop, st, [])
  | some groups_to_couple =>
      if 0 < env.lrcRequests ∧ (env.lrcSelect groups_to_couple).isNone
      then
        -- StopIteration from the LRC builder: `return None`
        (.stop, st, [])
      else
        let groupsets_groups := (List.range env.lrcRequests).filterMap
          (fun _ => env.lrcSelect groups_to_couple)
        let involved_groups := groups_to_couple ++ groupsets_groups.flatten
        let failed_locks := involved_groups.filter env.lockFails
        if ¬failed_locks.isEmpty then
          -- LockAlreadyAcquiredError path: drop contended groups, `continue`
          (.retry,
            { st with gbts := remove_unusable_groups st.gbts failed_locks },
            [])
        else
          -- all locks acquired; `finally` will remove the involved groups
          let exitState : ClusterState → ClusterState := fun s =>
            { s with gbts := remove_unusable_groups s.gbts involved_groups }
          if ¬(get_unsuitable_uncoupled_group_ids env.readErr
              involved_groups).isEmpty then
            -- a group has a non-empty metakey: `continue`, no writes
            (.retry, exitState st, [])
          else
            let st1 := addCoupleAndGroupsets st env.ns groups_to_couple
              groupsets_groups
            if env.dry_run then
              (.built groups_to_couple, exitState st1, [])
            else if ¬groups_to_couple.all env.writeOk then
              -- metakey write of the replicas groupset failed: destroy, raise
              let st2 := destroyCouple st1 env.ns groups_to_couple
              let st3 := groupsets_groups.foldl
                (fun s g => destroyLrcGroupset s env.ns g) st2
              (.error, exitState st3, [])
            else
              match writtenLrcPrefix env.writeOk groupsets_groups with
              | (written, true) =>
                  (.built groups_to_couple, exitState st1,
                    groups_to_couple :: written)
              | (written, false) =>
                  let st2 := destroyCouple st1 env.ns groups_to_couple
                  let st3 := groupsets_groups.foldl
                    (fun s g => destroyLrcGroupset s env.ns g) st2
                  (.error, exitState st3, groups_to_couple :: written)

/-- The `while True` loop of `_build_couple`, driven by fuel (the source loop
terminates because every `continue` path removes at least the contended or
involved groups from the candidate buckets). -/
def buildCouple (env : BuildEnv) : ℕ → ClusterState →
    BuildStep × ClusterState × List (List ℕ)
  | 0, st => (.stop, st, [])
  | fuel + 1, st =>
      match buildCoupleIter env st with
      | (.retry, st', w) =>
          let (r, st'', w') := buildCouple env fuel st'
          (r, st'', w ++ w')
      | out => out

/-- The per-couple loop of `Balancer.__couple_groups` (balancer.py:709-756):
build up to `couples` couples, collecting the created ones; a `None` result
stops the loop, an exception is caught and the loop continues. -/
def coupleGroupsLoop (env : BuildEnv) (fuel : ℕ) : ℕ → ClusterState →
    ClusterState × List (List ℕ) × List (List ℕ)
  | 0, st => (st, [], [])
  | n + 1, st =>
      match buildCouple env fuel st with
      | (.built c, st', w) =>
          let (st'', cs, ws) := coupleGroupsLoop env fuel n st'
          (st'', c :: cs, w ++ ws)
      | (.error, st', w) =>
          let (st'', cs, ws) := coupleGroupsLoop env fuel n st'
          (st'', cs, w ++ ws)
      | (_, st', w) => (st', [], w)

/-- `Balancer.__couple_groups` (balancer.py:689-765): the per-couple loop
followed, in dry-run mode, by `couple.destroy()` for every created couple. -/
def coupleGroups (env : BuildEnv) (fuel couples : ℕ) (st : ClusterState) :
    ClusterState × List (List ℕ) × List (List ℕ) :=
  let (st', created, writes) := coupleGroupsLoop env fuel couples st
  if env.dry_run then
    (created.foldl (fun s c => destroyCouple s env.ns c) st', created, writes)
  else
    (st', created, writes)

/-- **C6.** Before the metakey is written each involved uncoupled group is
verified to have an empty metakey: a group is suitable iff reading
`SYMMETRIC_GROUPS_KEY` from it yields storage error code `-2`; if any
involved group yields any other result, the build iteration performs no
metakey write, removes the involved groups from the candidate buckets, and
retries the selection with the remaining candidates. -/
theorem unsuitable_group_retry :
    (∀ (readErr : ℕ → ℤ) (ids : List ℕ) (g : ℕ), g ∈ ids →
      (g ∉ get_unsuitable_uncoupled_group_ids readErr ids ↔ readErr g = -2))
    ∧ (∀ (env : BuildEnv) (st : ClusterState) (gtc : List ℕ),
      chooseGroupsToCouple env.flag env.dc_node_type env.nsState env.units
          env.levels env.size st.gbts env.mandatory = some gtc →
      env.lrcRequests = 0 →
      (∀ g ∈ gtc, env.lockFails g = false) →
      (∃ g ∈ gtc, env.readErr g ≠ -2) →
      buildCoupleIter env st =
        (.retry, { st with gbts := remove_unusable_groups st.gbts gtc }, [])) := by
  constructor
  · intro readErr ids g hg
    unfold get_unsuitable_uncoupled_group_ids
    rw [List.mem_filter]
    constructor
    · intro h
      by_contra hne
      exact h ⟨hg, by simpa using hne⟩
    · intro h hc
      exact absurd h (by simpa using hc.2)
  · intro env st gtc hsel hlrc0 hlocks hbad
    unfold buildCoupleIter
    rw [hsel]
    simp only [hlrc0, List.range_zero, List.filterMap_nil, List.flatten_nil,
      List.append_nil]
    rw [if_neg (by simp)]
    have hfl : gtc.filter env.lockFails = [] := by
      rw [List.filter_eq_nil_iff]
      intro g hg
      simp [hlocks g hg]
    rw [hfl]
    rw [if_neg (by simp)]
    have hun : ¬(get_unsuitable_uncoupled_group_ids env.readErr gtc).isEmpty := by
      obtain ⟨g, hg, hge⟩ := hbad
      rw [List.isEmpty_iff]
      intro hnil
      have : g ∈ get_unsuitable_uncoupled_group_ids env.readErr gtc := by
        unfold get_unsuitable_uncoupled_group_ids
        exact List.mem_filter.mpr ⟨hg, by simpa using hge⟩
      rw [hnil] at this
      exact absurd this (List.not_mem_nil g)
    rw [if_pos hun]

/-- Environment used by the C6 witness: two uncoupled groups, group 1's
metakey read returns error code `0` (non-empty), locks free. -/
def c6env : BuildEnv :=
  { flag := false, dc_node_type := "dc", nsState := fun _ => {},
    units := c5units, levels := ["root", "dc", "hdd"], size := 2,
    mandatory := [], ns := "img", lrcRequests := 0, dry_run := false,
    lockFails := fun _ => false,
    readErr := fun g => if g = 1 then 0 else -2,
    writeOk := fun _ => true, lrcSelect := fun _ => none }

/-- Initial cluster state used by the C6 and C8 witnesses. -/
def buildSt0 : ClusterState :=
  { gbts := [(100, [1, 2])], namespaces := [], replicas_groupsets := 0,
    lrc_groupsets := 0 }

/-- Witness for C6: with group 1 unsuitable, the iteration retries, removes
the involved groups from the buckets and writes nothing. -/
theorem unsuitable_group_retry_witness :
    buildCoupleIter c6env buildSt0 =
      (.retry,
        { buildSt0 with
            gbts := remove_unusable_groups buildSt0.gbts [1, 2] }, []) :=
  unsuitable_group_retry.2 c6env buildSt0 [1, 2] (by decide) rfl
    (fun g _ => rfl) ⟨1, by decide, by decide⟩

/-- Environment used by the C8 counterexample and witness: a dry run building
one couple for the absent namespace `img`. -/
def c8env : BuildEnv :=
  { flag := false, dc_node_type := "dc", nsState := fun _ => {},
    units := c5units, levels := ["root", "dc", "hdd"], size := 2,
    mandatory := [], ns := "img", lrcRequests := 0, dry_run := true,
    lockFails := fun _ => false, readErr := fun _ => -2,
    writeOk := fun _ => true, lrcSelect := fun _ => none }

/-- **C8, counterexample.** The claim states that after `dry_run=true` no new
namespaces exist in the cluster model. Building one couple for the absent
namespace `img` in dry-run mode creates the `Namespace` object via
`storage.namespaces.add` (balancer.py:979-982); `couple.destroy()` only
detaches the couple from it, so the namespace remains in the model after the
call. -/
theorem dry_run_creates_namespace :
    "img" ∈ ((coupleGroups c8env 3 1 buildSt0).1.namespaces.map (·.id))
    ∧ "img" ∉ (buildSt0.namespaces.map (·.id)) := by
  constructor
  · have : ((coupleGroups c8env 3 1 buildSt0).1.namespaces.map (·.id)) =
        ["img"] := by decide
    rw [this]
    exact List.mem_singleton.mpr rfl
  · decide

lemma buildCoupleIter_dry (env : BuildEnv) (hdry : env.dry_run = true)
    (st : ClusterState) :
    (buildCoupleIter env st).2.2 = []
    ∧ ((buildCoupleIter env st).2.1.replicas_groupsets =
      match (buildCoupleIter env st).1 with
      | .built c => c ::ₘ st.replicas_groupsets
      | _ => st.replicas_groupsets) := by
  simp only [buildCoupleIter]
  split
  · exact ⟨rfl, rfl⟩
  · split_ifs with hA hB hC
    · exact ⟨rfl, rfl⟩
    · exact ⟨rfl, by simp [addCoupleAndGroupsets]⟩
    · exact ⟨rfl, rfl⟩
    · exact ⟨rfl, rfl⟩

lemma buildCouple_dry (env : BuildEnv) (hdry : env.dry_run = true) :
    ∀ (fuel : ℕ) (st : ClusterState),
      (buildCouple env fuel st).2.2 = []
      ∧ ((buildCouple env fuel st).2.1.replicas_groupsets =
        match (buildCouple env fuel st).1 with
        | .built c => c ::ₘ st.replicas_groupsets
        | _ => st.replicas_groupsets)
  | 0, st => ⟨rfl, rfl⟩
  | fuel + 1, st => by
      have hit := buildCoupleIter_dry env hdry st
      unfold buildCouple
      split
      · next st' w heq =>
          rw [heq] at hit
          have hw : w = [] := hit.1
          have hst : st'.replicas_groupsets = st.replicas_groupsets := hit.2
          have hrec := buildCouple_dry env hdry fuel st'
          rcases heq2 : buildCouple env fuel st' with ⟨r, st'', w'⟩
          rw [heq2] at hrec
          have hw' : w' = [] := hrec.1
          subst hw hw'
          refine ⟨rfl, ?_⟩
          cases r with
          | built c =>
              have h2 : st''.replicas_groupsets =
                  c ::ₘ st'.replicas_groupsets := hrec.2
              rw [hst] at h2
              exact h2
          | stop =>
              have h2 : st''.replicas_groupsets =
                  st'.replicas_groupsets := hrec.2
              rw [hst] at h2
              exact h2
          | retry =>
              have h2 : st''.replicas_groupsets =
                  st'.replicas_groupsets := hrec.2
              rw [hst] at h2
              exact h2
          | error =>
              have h2 : st''.replicas_groupsets =
                  st'.replicas_groupsets := hrec.2
              rw [hst] at h2
              exact h2
      · exact hit

lemma coupleGroupsLoop_dry (env : BuildEnv) (hdry : env.dry_run = true)
    (fuel : ℕ) :
    ∀ (n : ℕ) (st : ClusterState),
      (coupleGroupsLoop env fuel n st).2.2 = []
      ∧ ((coupleGroupsLoop env fuel n st).1.replicas_groupsets =
        (↑(coupleGroupsLoop env fuel n st).2.1 : Multiset (List ℕ))
          + st.replicas_groupsets)
  | 0, st => ⟨rfl, by
      show st.replicas_groupsets =
        (↑([] : List (List ℕ)) : Multiset (List ℕ)) + st.replicas_groupsets
      simp⟩
  | n + 1, st => by
      have hb := buildCouple_dry env hdry fuel st
      unfold coupleGroupsLoop
      split
      · next c st' w heq =>
          rw [heq] at hb
          have hw : w = [] := hb.1
          have hst : st'.replicas_groupsets = c ::ₘ st.replicas_groupsets :=
            hb.2
          have hrec := coupleGroupsLoop_dry env hdry fuel n st'
          rcases heq2 : coupleGroupsLoop env fuel n st' with ⟨st'', cs, ws⟩
          rw [heq2] at hrec
          have hws : ws = [] := hrec.1
          have hst2 : st''.replicas_groupsets =
              ↑cs + st'.replicas_groupsets := hrec.2
          subst hw hws
          refine ⟨rfl, ?_⟩
          show st''.replicas_groupsets = ↑(c :: cs) + st.replicas_groupsets
          rw [hst2, hst]
          have hcc : (↑(c :: cs) : Multiset (List ℕ)) = c ::ₘ ↑cs := rfl
          rw [hcc, Multiset.add_cons, Multiset.cons_add]
      · next st' w heq =>
          rw [heq] at hb
          have hw : w = [] := hb.1
          have hst : st'.replicas_groupsets = st.replicas_groupsets := hb.2
          have hrec := coupleGroupsLoop_dry env hdry fuel n st'
          rcases heq2 : coupleGroupsLoop env fuel n st' with ⟨st'', cs, ws⟩
          rw [heq2] at hrec
          have hws : ws = [] := hrec.1
          have hst2 : st''.replicas_groupsets =
              ↑cs + st'.replicas_groupsets := hrec.2
          subst hw hws
          refine ⟨rfl, ?_⟩
          show st''.replicas_groupsets = ↑cs + st.replicas_groupsets
          rw [hst2, hst]
      · next r st' w hne1 hne2 heq =>
          rw [heq] at hb
          have hw : w = [] := hb.1
          refine ⟨hw, ?_⟩
          have hr : st'.replicas_groupsets = st.replicas_groupsets := by
            cases r with
            | built c => exact absurd rfl (hne1 c)
            | error => exact absurd rfl hne2
            | stop => exact hb.2
            | retry => exact hb.2
          rw [hr]
          simp

lemma foldl_destroyCouple_replicas (ns : String) :
    ∀ (cs : List (List ℕ)) (s : ClusterState),
      (cs.foldl (fun s c => destroyCouple s ns c) s).replicas_groupsets =
        s.replicas_groupsets - (↑cs : Multiset (List ℕ))
  | [], s => by simp
  | c :: cs, s => by
      simp only [List.foldl_cons]
      rw [foldl_destroyCouple_replicas ns cs (destroyCouple s ns c)]
      show (destroyCouple s ns c).replicas_groupsets - ↑cs =
        s.replicas_groupsets - ↑(c :: cs)
      have : (↑(c :: cs) : Multiset (List ℕ)) = c ::ₘ ↑cs := rfl
      rw [this, Multiset.sub_cons]
      rfl

/-- **C8, amended.** After a dry-run `build_couples` call no metakey write is
performed and every created replicas groupset is destroyed before returning,
so the replicas-groupset repository is unchanged; however a namespace created
during the call remains in the cluster model (see the counterexample). -/
theorem build_couples_dry_run_amended (env : BuildEnv)
    (hdry : env.dry_run = true) (fuel couples : ℕ) (st : ClusterState) :
    (coupleGroups env fuel couples st).2.2 = []
    ∧ (coupleGroups env fuel couples st).1.replicas_groupsets =
        st.replicas_groupsets := by
  have hl := coupleGroupsLoop_dry env hdry fuel couples st
  rcases heq : coupleGroupsLoop env fuel couples st with ⟨st', created, writes⟩
  rw [heq] at hl
  have hw : writes = [] := hl.1
  have hst : st'.replicas_groupsets = ↑created + st.replicas_groupsets := hl.2
  unfold coupleGroups
  rw [heq]
  show (if env.dry_run then
      (created.foldl (fun s c => destroyCouple s env.ns c) st', created, writes)
    else (st', created, writes)).2.2 = []
    ∧ (if env.dry_run then
      (created.foldl (fun s c => destroyCouple s env.ns c) st', created, writes)
    else (st', created, writes)).1.replicas_groupsets = st.replicas_groupsets
  rw [if_pos hdry]
  refine ⟨hw, ?_⟩
  show (created.foldl (fun s c => destroyCouple s env.ns c)
      st').replicas_groupsets = st.replicas_groupsets
  rw [foldl_destroyCouple_replicas, hst]
  exact add_tsub_cancel_left _ _

/-- Witness for the amended C8 at the concrete dry-run build. -/
theorem build_couples_dry_run_amended_witness :
    (coupleGroups c8env 3 1 buildSt0).2.2 = []
    ∧ (coupleGroups c8env 3 1 buildSt0).1.replicas_groupsets =
        buildSt0.replicas_groupsets :=
  build_couples_dry_run_amended c8env rfl 3 1 buildSt0

end Balancer
